import Mathlib

/-!
Verification of `bevy_transform_tools`: a shallow embedding of the gizmo's
math utilities (`src/math.rs`), frame builder (`src/gizmo_frame.rs`) and
interaction engine (`src/interaction.rs`, `src/lib.rs`), together with
theorems settling the specification's claims.

`f32` values are embedded as exact real numbers: every arithmetic operation
of the source maps to the corresponding exact operation on `ℝ`, so the
theorems describe the ideal-arithmetic behaviour of the algorithms.
Bevy-provided inputs (camera, window, cursor, entity queries) are modelled
as explicit optional arguments, mirroring the `let Some .. else return`
chains of the source; in-place ECS mutation of a target's `Transform` is
modelled by returning the written value (`none` = no write happened).
-/

noncomputable section

/-- `bevy::math::Vec3`, embedded with exact real components. -/
structure Vec3 where
  x : ℝ
  y : ℝ
  z : ℝ
deriving DecidableEq

namespace Vec3

def add (a b : Vec3) : Vec3 := ⟨a.x + b.x, a.y + b.y, a.z + b.z⟩

def sub (a b : Vec3) : Vec3 := ⟨a.x - b.x, a.y - b.y, a.z - b.z⟩

def neg (a : Vec3) : Vec3 := ⟨-a.x, -a.y, -a.z⟩

def smul (s : ℝ) (a : Vec3) : Vec3 := ⟨s * a.x, s * a.y, s * a.z⟩

instance : Add Vec3 := ⟨add⟩

instance : Sub Vec3 := ⟨sub⟩

instance : Neg Vec3 := ⟨neg⟩

instance : SMul ℝ Vec3 := ⟨smul⟩

instance : Zero Vec3 := ⟨⟨0, 0, 0⟩⟩

/-- `Vec3::dot`. -/
def dot (a b : Vec3) : ℝ := a.x * b.x + a.y * b.y + a.z * b.z

/-- `Vec3::cross`. -/
def cross (a b : Vec3) : Vec3 :=
  ⟨a.y * b.z - a.z * b.y, a.z * b.x - a.x * b.z, a.x * b.y - a.y * b.x⟩

/-- `Vec3::length_squared`. -/
def lengthSq (a : Vec3) : ℝ := a.x * a.x + a.y * a.y + a.z * a.z

/-- `Vec3::length`. -/
def length (a : Vec3) : ℝ := Real.sqrt a.lengthSq

/-- `Vec3::abs` (componentwise absolute value). -/
def vabs (a : Vec3) : Vec3 := ⟨|a.x|, |a.y|, |a.z|⟩

/-- `Vec3::normalize_or_zero`: the unit vector in the same direction, or
zero for the zero vector (glam returns zero when the reciprocal length is
not finite and positive). -/
def normalizeOrZero (a : Vec3) : Vec3 :=
  if 0 < a.length then (1 / a.length) • a else 0

/-- Componentwise product with a scalar on the right: `v * s` in glam. -/
def mulScalar (a : Vec3) (s : ℝ) : Vec3 := ⟨a.x * s, a.y * s, a.z * s⟩

def unitX : Vec3 := ⟨1, 0, 0⟩

def unitY : Vec3 := ⟨0, 1, 0⟩

def unitZ : Vec3 := ⟨0, 0, 1⟩

end Vec3

/-- `bevy::math::Quat` (x, y, z, w), embedded with exact real components. -/
structure Quat where
  x : ℝ
  y : ℝ
  z : ℝ
  w : ℝ

namespace Quat

/-- The identity rotation. -/
def id3 : Quat := ⟨0, 0, 0, 1⟩

/-- `Quat * Vec3` (glam's rotation of a vector by a unit quaternion):
`t = 2 (q.xyz × v)`, result `v + w t + q.xyz × t`. -/
def rotate (q : Quat) (v : Vec3) : Vec3 :=
  let u : Vec3 := ⟨q.x, q.y, q.z⟩
  let t : Vec3 := (2 : ℝ) • Vec3.cross u v
  v + q.w • t + Vec3.cross u t

/-- `Quat * Quat` (Hamilton product, glam component order). -/
def mul (a b : Quat) : Quat :=
  ⟨a.w * b.x + a.x * b.w + a.y * b.z - a.z * b.y,
   a.w * b.y - a.x * b.z + a.y * b.w + a.z * b.x,
   a.w * b.z + a.x * b.y - a.y * b.x + a.z * b.w,
   a.w * b.w - a.x * b.x - a.y * b.y - a.z * b.z⟩

/-- `Quat::from_axis_angle` (axis assumed normalized). -/
def fromAxisAngle (axis : Vec3) (angle : ℝ) : Quat :=
  ⟨axis.x * Real.sin (angle / 2), axis.y * Real.sin (angle / 2),
   axis.z * Real.sin (angle / 2), Real.cos (angle / 2)⟩

end Quat

/-- `f32::atan2`: `y.atan2 x` is the signed angle of the point `(x, y)`. -/
def atan2 (y x : ℝ) : ℝ :=
  if 0 < x then Real.arctan (y / x)
  else if x < 0 then
    (if 0 ≤ y then Real.arctan (y / x) + Real.pi else Real.arctan (y / x) - Real.pi)
  else
    (if 0 < y then Real.pi / 2 else if y < 0 then -(Real.pi / 2) else 0)

/-- `f32::rem_euclid` for a positive modulus. -/
def remEuclid (a b : ℝ) : ℝ := a - b * ⌊a / b⌋

/-- `bevy::math::Ray3d`: origin and direction.  The source's direction is a
`Dir3` (unit length by construction); theorems that depend on this carry an
explicit unit-length hypothesis. -/
structure Ray where
  origin : Vec3
  dir : Vec3

/-! ### `src/math.rs` -/

/-- `math.rs`: threshold for considering vectors as parallel or zero-length. -/
def EPSILON : ℝ := 1e-6

/-- `math.rs`: threshold for parallel plane/ray detection. -/
def PLANE_EPSILON : ℝ := 1e-5

/-- `math.rs`: threshold for choosing the perpendicular helper vector. -/
def AXIS_PARALLEL_THRESHOLD : ℝ := 0.9

/-- `math.rs::axis_basis`: an orthonormal basis `(t1, t2)` in the plane
perpendicular to `axis`. -/
def axis_basis (axis0 : Vec3) : Vec3 × Vec3 :=
  let axis := axis0.normalizeOrZero
  if axis.lengthSq < EPSILON then (Vec3.unitX, Vec3.unitY)
  else
    let helper := if axis.vabs.dot Vec3.unitY < AXIS_PARALLEL_THRESHOLD
      then Vec3.unitY else Vec3.unitX
    let t1 := (axis.cross helper).normalizeOrZero
    let t2 := (axis.cross t1).normalizeOrZero
    (t1, t2)

/-- `math.rs::ray_sphere_intersection`: distance along the ray to the
sphere, if the ray hits it. -/
def ray_sphere_intersection (ray : Ray) (center : Vec3) (radius : ℝ) : Option ℝ :=
  let m := ray.origin - center
  let b := m.dot ray.dir
  let c := m.lengthSq - radius * radius
  if 0 < c ∧ 0 < b then none
  else
    let discr := b * b - c
    if discr < 0 then none
    else
      let t := -b - Real.sqrt discr
      if t < 0 then some 0 else some t

/-- `math.rs::ray_plane_intersection`: the intersection point of a ray and a
plane, if any. -/
def ray_plane_intersection (ray : Ray) (plane_origin plane_normal : Vec3) :
    Option Vec3 :=
  let denom := plane_normal.dot ray.dir
  if |denom| < PLANE_EPSILON then none
  else
    let t := (plane_origin - ray.origin).dot plane_normal / denom
    if t < 0 then none else some (ray.origin + t • ray.dir)

/-! ### `src/types.rs` (data model used by the interaction engine) -/

/-- `types.rs::GizmoAxis`. -/
inductive GizmoAxis where
  | X
  | Y
  | Z
deriving DecidableEq

/-- `GizmoAxis::to_vec3`. -/
def GizmoAxis.to_vec3 : GizmoAxis → Vec3
  | .X => Vec3.unitX
  | .Y => Vec3.unitY
  | .Z => Vec3.unitZ

/-- `types.rs::GizmoOperation`. -/
inductive GizmoOperation where
  | TranslateAxis
  | TranslatePlane
  | Rotate
  | ScaleAxis
  | ScaleUniform
deriving DecidableEq

/-- `types.rs::TransformGizmoSpace`. -/
inductive TransformGizmoSpace where
  | World
  | Local
deriving DecidableEq

/-- `types.rs::TransformGizmoMode` (UI-facing; carried but unused by the
interaction logic). -/
inductive TransformGizmoMode where
  | Translate
  | Rotate
  | Scale
deriving DecidableEq

/-- A Bevy `Entity`, identified by its index. -/
abbrev Entity : Type := ℕ

/-- A Bevy `GlobalTransform`, reduced to its scale/rotation/translation
decomposition — exactly the data `gizmo_frame.rs` and `interaction.rs` read
from it (`translation()`, `rotation()`, `to_scale_rotation_translation().0`). -/
structure GlobalTransform where
  translation : Vec3
  rotation : Quat
  scale : Vec3

/-- A Bevy `Transform` (the mutable local transform of a target). -/
structure Transform where
  translation : Vec3
  rotation : Quat
  scale : Vec3

/-- `types.rs::AxisToggles`. -/
structure AxisToggles where
  x : Bool
  y : Bool
  z : Bool

/-- `AxisToggles::enabled`. -/
def AxisToggles.enabled (t : AxisToggles) : GizmoAxis → Bool
  | .X => t.x
  | .Y => t.y
  | .Z => t.z

/-- `types.rs::AxisSnap`. -/
structure AxisSnap where
  x : Option ℝ
  y : Option ℝ
  z : Option ℝ

/-- `AxisSnap::get`. -/
def AxisSnap.get (s : AxisSnap) : GizmoAxis → Option ℝ
  | .X => s.x
  | .Y => s.y
  | .Z => s.z

/-- `AxisSnap::none`. -/
def AxisSnap.allNone : AxisSnap := ⟨none, none, none⟩

/-- `types.rs::TransformGizmoSnap`. -/
structure TransformGizmoSnap where
  translate : AxisSnap
  rotate : AxisSnap
  scale : AxisSnap

/-- `types.rs::TransformGizmoStyle`, restricted to the fields the embedded
systems (`interaction.rs`) read; the colour and purely visual fields that
only `draw.rs` uses are omitted, since the renderer is not modelled. -/
structure TransformGizmoStyle where
  show_translate : Bool
  translate_axes : AxisToggles
  show_rotate : Bool
  rotate_axes : AxisToggles
  show_scale : Bool
  scale_axes : AxisToggles
  axis_length : ℝ
  translate_cone_length : ℝ
  translate_hit_radius : ℝ
  scale_cube_offset : ℝ
  scale_hit_radius : ℝ
  rotation_arc_degrees : ℝ
  rotation_hit_thickness : ℝ
  bounds_radius : ℝ
  show_translate_planes : Bool
  translate_plane_size : ℝ
  translate_plane_offset : ℝ
  translate_plane_hit_thickness : ℝ
  show_scale_uniform : Bool
  scale_uniform_hit_radius : ℝ

/-- `types.rs::TransformGizmoDrag`. -/
structure TransformGizmoDrag where
  target : Entity
  op : GizmoOperation
  axis : GizmoAxis
  origin : Vec3
  axis_dir : Vec3
  plane_normal : Vec3
  plane_origin : Vec3
  plane_dir1 : Vec3
  plane_dir2 : Vec3
  plane_axis1 : GizmoAxis
  plane_axis2 : GizmoAxis
  start_translation : Vec3
  start_rotation : Quat
  start_scale : Vec3
  start_t : ℝ
  start_vector : Vec3

/-- `types.rs::TransformGizmoState`. -/
structure TransformGizmoState where
  mode : TransformGizmoMode
  space : TransformGizmoSpace
  active_target : Option Entity
  hovered_axis : Option GizmoAxis
  hovered_op : Option GizmoOperation
  drag : Option TransformGizmoDrag

/-! ### `src/gizmo_frame.rs` -/

/-- `gizmo_frame.rs::AxisKind`. -/
inductive AxisKind where
  | Translate
  | Rotate
  | Scale

/-- `gizmo_frame.rs::GizmoFrame`. -/
structure GizmoFrame where
  origin : Vec3
  tx_x : Vec3
  tx_y : Vec3
  tx_z : Vec3
  sc_x : Vec3
  sc_y : Vec3
  sc_z : Vec3

/-- `GizmoFrame::new`. -/
def GizmoFrame.new (transform : GlobalTransform) (space : TransformGizmoSpace) :
    GizmoFrame :=
  let origin := transform.translation
  let rotation := transform.rotation
  let local_x := rotation.rotate Vec3.unitX
  let local_y := rotation.rotate Vec3.unitY
  let local_z := rotation.rotate Vec3.unitZ
  let txs : Vec3 × Vec3 × Vec3 :=
    match space with
    | .World => (Vec3.unitX, Vec3.unitY, Vec3.unitZ)
    | .Local => (local_x, local_y, local_z)
  { origin := origin
    tx_x := txs.1, tx_y := txs.2.1, tx_z := txs.2.2
    sc_x := local_x, sc_y := local_y, sc_z := local_z }

/-- `GizmoFrame::axis_dir`. -/
def GizmoFrame.axis_dir (f : GizmoFrame) (axis : GizmoAxis) (kind : AxisKind) :
    Vec3 :=
  match kind with
  | .Translate | .Rotate =>
    match axis with
    | .X => f.tx_x
    | .Y => f.tx_y
    | .Z => f.tx_z
  | .Scale =>
    match axis with
    | .X => f.sc_x
    | .Y => f.sc_y
    | .Z => f.sc_z

/-- `gizmo_frame.rs::plane_axes`. -/
def plane_axes : GizmoAxis → GizmoAxis × GizmoAxis
  | .X => (.Y, .Z)
  | .Y => (.X, .Z)
  | .Z => (.X, .Y)

/-! ### `src/interaction.rs` -/

/-- `interaction.rs`: minimum divisor to prevent division by zero in scale
calculations (`MIN_SCALE_DIVISOR`).  `interaction.rs` also re-declares
`EPSILON = 1e-6`, identical to the `math.rs` constant modelled above. -/
def MIN_SCALE_DIVISOR : ℝ := 1e-3

/-- A cursor position, `bevy::math::Vec2`. -/
structure Vec2 where
  x : ℝ
  y : ℝ

/-- The camera as the interaction systems consume it: its
`GlobalTransform` (for `forward()`) and `Camera::viewport_to_world`
applied with that transform, which yields a world-space ray for a cursor
position, or fails. -/
structure Camera where
  transform : GlobalTransform
  viewportToWorld : Vec2 → Option Ray

/-- `GlobalTransform::forward()`: the unit `-Z` direction of the rotation. -/
def GlobalTransform.forward (g : GlobalTransform) : Vec3 :=
  g.rotation.rotate ⟨0, 0, -1⟩

/-- The primary window, reduced to `Window::cursor_position()`. -/
structure Window where
  cursorPos : Option Vec2

/-- An accepted handle hit of one target: ray parameter `t`, operation and
axis, as recorded by the `best` variables of `update_hovered_axis`. -/
abbrev Hit := ℝ × GizmoOperation × GizmoAxis

/-- The running `(best_t, best_target, best)` accumulator of
`update_hovered_axis`.  The source initialises `best_t` to `f32::MAX` with
`best_target`/`best` unset; `none` models that initial state (every actual
hit's `t` compares below `f32::MAX`). -/
abbrev HoverBest := Option (ℝ × Entity × GizmoOperation × GizmoAxis)

/-- The translate-cone test of `update_hovered_axis` for one axis (the
`--- Axis translation cones ---` block). -/
def cone_hit (style : TransformGizmoStyle) (ray : Ray) (frame : GizmoFrame)
    (axis : GizmoAxis) : Option Hit :=
  if style.show_translate ∧ style.translate_axes.enabled axis then
    let axis_dir := (frame.axis_dir axis .Translate).normalizeOrZero
    if axis_dir.lengthSq < EPSILON then none
    else
      let line_end := frame.origin + style.axis_length • axis_dir
      let cone_tip := line_end + style.translate_cone_length • axis_dir
      let center := (0.5 : ℝ) • (line_end + cone_tip)
      (ray_sphere_intersection ray center style.translate_hit_radius).map
        (fun t => (t, GizmoOperation.TranslateAxis, axis))
  else none

/-- The scale-cube test of `update_hovered_axis` for one axis (the
`--- Axis scale cubes ---` block). -/
def cube_hit (style : TransformGizmoStyle) (ray : Ray) (frame : GizmoFrame)
    (axis : GizmoAxis) : Option Hit :=
  if style.show_scale ∧ style.scale_axes.enabled axis then
    let axis_dir := (frame.axis_dir axis .Scale).normalizeOrZero
    if axis_dir.lengthSq < EPSILON then none
    else
      let center := frame.origin +
        (style.axis_length * style.scale_cube_offset) • axis_dir
      (ray_sphere_intersection ray center style.scale_hit_radius).map
        (fun t => (t, GizmoOperation.ScaleAxis, axis))
  else none

/-- The rotation-arc test of `update_hovered_axis` for one axis (the
`--- Rotation arcs ---` block), including its `(axis_vec, n1, n2)` table. -/
def ring_hit (style : TransformGizmoStyle) (ray : Ray) (frame : GizmoFrame)
    (axis : GizmoAxis) : Option Hit :=
  if style.show_rotate ∧ style.rotate_axes.enabled axis then
    let table : Vec3 × Vec3 × Vec3 :=
      match axis with
      | .X => (frame.axis_dir .X .Rotate, frame.axis_dir .Y .Rotate,
               frame.axis_dir .Z .Rotate)
      | .Y => (frame.axis_dir .Y .Rotate, frame.axis_dir .Z .Rotate,
               frame.axis_dir .X .Rotate)
      | .Z => (frame.axis_dir .Z .Rotate, frame.axis_dir .X .Rotate,
               frame.axis_dir .Y .Rotate)
    let axis_dir := table.1.normalizeOrZero
    if axis_dir.lengthSq < EPSILON then none
    else
      match ray_plane_intersection ray frame.origin axis_dir with
      | none => none
      | some hit_point =>
        let v := hit_point - frame.origin
        let radius := v.length
        if radius < 1e-4 then none
        else if style.rotation_hit_thickness < |radius - style.axis_length| then none
        else
          let tb := axis_basis axis_dir
          let proj := v.normalizeOrZero
          let angle := atan2 (proj.dot tb.2) (proj.dot tb.1)
          let mid0 := (table.2.1 + table.2.2).normalizeOrZero
          let mid1 := mid0 - axis_dir.mulScalar (axis_dir.dot mid0)
          let mid := mid1.normalizeOrZero
          let centre := atan2 (mid.dot tb.2) (mid.dot tb.1)
          let half := (style.rotation_arc_degrees * (Real.pi / 180)) * 0.5
          let diff := remEuclid (angle - centre + Real.pi) (2 * Real.pi) - Real.pi
          if half < |diff| then none
          else
            (ray_sphere_intersection ray hit_point style.rotation_hit_thickness).map
              (fun t => (t, GizmoOperation.Rotate, axis))
  else none

/-- The planar-rectangle test of `update_hovered_axis` for one axis (the
`--- Planar translation rectangles ---` block). -/
def plane_rect_hit (style : TransformGizmoStyle) (ray : Ray) (frame : GizmoFrame)
    (axis : GizmoAxis) : Option Hit :=
  if (style.show_translate ∧ style.show_translate_planes) ∧
      style.translate_axes.enabled axis then
    let da := plane_axes axis
    let plane_normal := (frame.axis_dir axis .Translate).normalizeOrZero
    let dir1 := (frame.axis_dir da.1 .Translate).normalizeOrZero
    let dir2 := (frame.axis_dir da.2 .Translate).normalizeOrZero
    if plane_normal.lengthSq < EPSILON ∨ dir1.lengthSq < EPSILON ∨
        dir2.lengthSq < EPSILON then none
    else
      match ray_plane_intersection ray frame.origin plane_normal with
      | none => none
      | some hit_point =>
        let lcl := hit_point - frame.origin
        let u := lcl.dot dir1
        let v := lcl.dot dir2
        let offset := style.translate_plane_offset
        let size := style.translate_plane_size
        let pad := style.translate_plane_hit_thickness
        if offset - pad ≤ u ∧ u ≤ offset + size + pad ∧
            offset - pad ≤ v ∧ v ≤ offset + size + pad then
          let t := (hit_point - ray.origin).dot ray.dir
          if 0 ≤ t then some (t, GizmoOperation.TranslatePlane, axis) else none
        else none
  else none

/-- The uniform-scale test of `update_hovered_axis` (the
`--- Uniform scale square at the origin ---` block); the axis slot is
unused for uniform scale and filled with `X` as in the source. -/
def uniform_hit (style : TransformGizmoStyle) (ray : Ray) (frame : GizmoFrame) :
    Option Hit :=
  if style.show_scale ∧ style.show_scale_uniform then
    (ray_sphere_intersection ray frame.origin style.scale_uniform_hit_radius).map
      (fun t => (t, GizmoOperation.ScaleUniform, GizmoAxis.X))
  else none

/-- All handle tests of one target, in the source's evaluation order:
translate cones X,Y,Z; scale cubes X,Y,Z; rotation arcs X,Y,Z; planar
rectangles X,Y,Z; uniform-scale handle. -/
def target_hits (style : TransformGizmoStyle) (ray : Ray) (frame : GizmoFrame) :
    List (Option Hit) :=
  [cone_hit style ray frame .X, cone_hit style ray frame .Y,
   cone_hit style ray frame .Z,
   cube_hit style ray frame .X, cube_hit style ray frame .Y,
   cube_hit style ray frame .Z,
   ring_hit style ray frame .X, ring_hit style ray frame .Y,
   ring_hit style ray frame .Z,
   plane_rect_hit style ray frame .X, plane_rect_hit style ray frame .Y,
   plane_rect_hit style ray frame .Z,
   uniform_hit style ray frame]

/-- One `if let Some(t) = ... { if t < best_t { ... } }` update of the
`best` accumulator for a handle test result of target `e`. -/
def consider_hit (e : Entity) (acc : HoverBest) (h : Option Hit) : HoverBest :=
  match h with
  | none => acc
  | some (t, op, ax) =>
    match acc with
    | none => some (t, e, op, ax)
    | some (bt, be, bop, bax) =>
      if t < bt then some (t, e, op, ax) else some (bt, be, bop, bax)

/-- One iteration of the per-target loop of `update_hovered_axis`: the
coarse bounding-sphere test (skipping the target when the ray misses the
bounds sphere or first meets it beyond the current best hit), then all
handle tests. -/
def scan_target (style : TransformGizmoStyle) (space : TransformGizmoSpace)
    (ray : Ray) (acc : HoverBest) (p : Entity × GlobalTransform) : HoverBest :=
  let frame := GizmoFrame.new p.2 space
  match ray_sphere_intersection ray frame.origin style.bounds_radius with
  | none => acc
  | some bounds_t =>
    match acc with
    | none => (target_hits style ray frame).foldl (consider_hit p.1) none
    | some best =>
      if best.1 < bounds_t then some best
      else (target_hits style ray frame).foldl (consider_hit p.1) (some best)

/-- The clearing of hover state in the early-return arms of
`update_hovered_axis`. -/
def clear_hover (s : TransformGizmoState) : TransformGizmoState :=
  { s with hovered_axis := none, hovered_op := none }

/-- `interaction.rs::update_hovered_axis`.  The camera query, primary
window and the cursor-to-ray conversion are the optional host inputs;
`targets` is the target query in iteration order. -/
def update_hovered_axis (state : TransformGizmoState)
    (style : TransformGizmoStyle) (camera : Option Camera)
    (window : Option Window) (targets : List (Entity × GlobalTransform)) :
    TransformGizmoState :=
  if state.drag.isSome then state
  else
    match camera with
    | none => clear_hover state
    | some cam =>
      match window with
      | none => clear_hover state
      | some win =>
        match win.cursorPos with
        | none => clear_hover state
        | some cursor_pos =>
          match cam.viewportToWorld cursor_pos with
          | none => clear_hover state
          | some ray =>
            match targets.foldl (scan_target style state.space ray) none with
            | some (_, e, op, ax) =>
              { state with active_target := some e, hovered_axis := some ax,
                           hovered_op := some op }
            | none => { state with hovered_axis := none, hovered_op := none }

/-- `interaction.rs::begin_drag`.  `target_global` models
`targets.get(target_entity)` for the active target (the looked-up entity
id always equals `state.active_target`, which becomes `drag.target`). -/
def begin_drag (just_pressed : Bool) (state : TransformGizmoState)
    (camera : Option Camera) (window : Option Window)
    (target_global : Option GlobalTransform) : TransformGizmoState :=
  if ¬just_pressed then state
  else if state.drag.isSome then state
  else
    match state.hovered_axis with
    | none => state
    | some axis =>
      match state.hovered_op with
      | none => state
      | some op =>
        match camera with
        | none => state
        | some cam =>
          match window with
          | none => state
          | some win =>
            match win.cursorPos with
            | none => state
            | some cursor_pos =>
              match cam.viewportToWorld cursor_pos with
              | none => state
              | some ray =>
                match state.active_target with
                | none => state
                | some target_entity =>
                  match target_global with
                  | none => state
                  | some global =>
                    let frame := GizmoFrame.new global state.space
                    let origin := frame.origin
                    let axis_vec :=
                      match op with
                      | .TranslateAxis | .TranslatePlane =>
                        frame.axis_dir axis .Translate
                      | .Rotate => frame.axis_dir axis .Rotate
                      | .ScaleAxis => frame.axis_dir axis .Scale
                      | .ScaleUniform => cam.transform.forward
                    let axis_dir := axis_vec.normalizeOrZero
                    let plane_normal :=
                      match op with
                      | .Rotate => axis_dir
                      | .TranslateAxis | .ScaleAxis =>
                        let view_dir := -cam.transform.forward
                        let n := ((axis_dir.cross view_dir).cross
                          axis_dir).normalizeOrZero
                        if n.lengthSq < EPSILON then axis_dir else n
                      | .TranslatePlane => axis_dir
                      | .ScaleUniform =>
                        let view_dir := -cam.transform.forward
                        let helper :=
                          if view_dir.vabs.dot Vec3.unitY < (0.9 : ℝ)
                          then Vec3.unitY else Vec3.unitX
                        let n := (view_dir.cross helper).normalizeOrZero
                        if n.lengthSq < EPSILON then view_dir else n
                    let plane_origin := origin
                    let hit_point :=
                      (ray_plane_intersection ray plane_origin plane_normal).getD
                        origin
                    let v := hit_point - origin
                    let start_t :=
                      match op with
                      | .TranslateAxis | .ScaleAxis => v.dot axis_dir
                      | .Rotate =>
                        let tb := axis_basis axis_dir
                        let proj := v.normalizeOrZero
                        atan2 (proj.dot tb.2) (proj.dot tb.1)
                      | .TranslatePlane => 0
                      | .ScaleUniform => v.length
                    -- `plane_dir1/2`, `plane_axis1/2` keep their
                    -- initialisers (`ZERO`, `ZERO`, `X`, `Y`) except in the
                    -- `TranslatePlane` arm of the `start_vector` match.
                    let pdata : Vec3 × Vec3 × GizmoAxis × GizmoAxis × Vec3 :=
                      match op with
                      | .TranslatePlane =>
                        let a12 := plane_axes axis
                        let d1 := (frame.axis_dir a12.1 .Translate).normalizeOrZero
                        let d2 := (frame.axis_dir a12.2 .Translate).normalizeOrZero
                        let n := plane_normal
                        (d1, d2, a12.1, a12.2, v - n.mulScalar (v.dot n))
                      | .Rotate => (0, 0, .X, .Y, v)
                      | _ => (0, 0, .X, .Y, 0)
                    { state with drag := some {
                        target := target_entity
                        op := op
                        axis := axis
                        origin := origin
                        axis_dir := axis_dir
                        plane_normal := plane_normal
                        plane_origin := plane_origin
                        plane_dir1 := pdata.1
                        plane_dir2 := pdata.2.1
                        plane_axis1 := pdata.2.2.1
                        plane_axis2 := pdata.2.2.2.1
                        start_translation := global.translation
                        start_rotation := global.rotation
                        start_scale := global.scale
                        start_t := start_t
                        start_vector := pdata.2.2.2.2 } }

/-- `interaction.rs::snap_scale`.  (`f32::round` ties away from zero;
`round` on `ℝ` ties upward — the difference only affects exact half-way
points and no claim depends on the tie direction.) -/
def snap_scale (base delta : ℝ) (step : Option ℝ) : ℝ :=
  let raw := 1 + delta
  match step with
  | some s =>
    if 0 < s then
      let target := base * raw
      let snapped := ((round (target / s) : ℤ) : ℝ) * s
      if EPSILON < |base| then snapped / base else raw
    else raw
  | none => raw

/-- Rounding `delta` to the nearest multiple of a configured positive snap
step, as in the `if let Some(step) = snap... { if step > 0.0 { ... } }`
pattern of `drag_gizmo`. -/
def snap_delta (delta : ℝ) (step : Option ℝ) : ℝ :=
  match step with
  | some s => if 0 < s then ((round (delta / s) : ℤ) : ℝ) * s else delta
  | none => delta

/-- The `match drag.op` block of `drag_gizmo`: the transform written to the
target, given the current hit point. -/
def apply_drag_op (drag : TransformGizmoDrag) (snap : TransformGizmoSnap)
    (hit_point : Vec3) (transform : Transform) : Transform :=
  let v := hit_point - drag.origin
  match drag.op with
  | .TranslateAxis =>
    let t := v.dot drag.axis_dir
    let delta := snap_delta (t - drag.start_t) (snap.translate.get drag.axis)
    { transform with translation := drag.start_translation + delta • drag.axis_dir }
  | .TranslatePlane =>
    let n := drag.plane_normal
    let proj := v - n.mulScalar (v.dot n)
    let delta0 := proj - drag.start_vector
    let u := snap_delta (delta0.dot drag.plane_dir1)
      (snap.translate.get drag.plane_axis1)
    let w := snap_delta (delta0.dot drag.plane_dir2)
      (snap.translate.get drag.plane_axis2)
    let delta := drag.plane_dir1.mulScalar u + drag.plane_dir2.mulScalar w
    { transform with translation := drag.start_translation + delta }
  | .ScaleAxis =>
    let t := v.dot drag.axis_dir
    let delta := (t - drag.start_t) / max drag.start_t MIN_SCALE_DIVISOR
    let scale := drag.start_scale
    let scale1 :=
      match drag.axis with
      | .X => { scale with x := scale.x * snap_scale scale.x delta (snap.scale.get .X) }
      | .Y => { scale with y := scale.y * snap_scale scale.y delta (snap.scale.get .Y) }
      | .Z => { scale with z := scale.z * snap_scale scale.z delta (snap.scale.get .Z) }
    { transform with scale := scale1 }
  | .ScaleUniform =>
    let t := v.length
    let factor := if MIN_SCALE_DIVISOR < |drag.start_t| then t / drag.start_t else 1
    let base := drag.start_scale
    let snap_step := (snap.scale.get .X).getD 0
    let snapped_factor :=
      if 0 < snap_step then
        let target := base.x * factor
        let snapped := ((round (target / snap_step) : ℤ) : ℝ) * snap_step
        if EPSILON < |base.x| then snapped / base.x else factor
      else factor
    { transform with scale := base.mulScalar (max snapped_factor 0.001) }
  | .Rotate =>
    let tb := axis_basis drag.axis_dir
    let proj := v.normalizeOrZero
    let angle := atan2 (proj.dot tb.2) (proj.dot tb.1)
    let delta_angle := snap_delta (angle - drag.start_t)
      (snap.rotate.get drag.axis)
    let delta_rot := Quat.fromAxisAngle drag.axis_dir delta_angle
    { transform with rotation := delta_rot.mul drag.start_rotation }

/-- `interaction.rs::drag_gizmo`.  `target_transform` models
`targets.get_mut(drag.target)`; the result is the `Transform` value written
in place to that target, or `none` when the frame is a no-op (any early
`return`).  `drag_gizmo` reads but never reassigns the state. -/
def drag_gizmo (state : TransformGizmoState) (pressed : Bool)
    (camera : Option Camera) (window : Option Window)
    (snap : TransformGizmoSnap) (target_transform : Option Transform) :
    Option Transform :=
  match state.drag with
  | none => none
  | some drag =>
    if ¬pressed then none
    else
      match camera with
      | none => none
      | some cam =>
        match window with
        | none => none
        | some win =>
          match win.cursorPos with
          | none => none
          | some cursor_pos =>
            match cam.viewportToWorld cursor_pos with
            | none => none
            | some ray =>
              match target_transform with
              | none => none
              | some transform =>
                let hit_point :=
                  (ray_plane_intersection ray drag.plane_origin
                    drag.plane_normal).getD drag.origin
                some (apply_drag_op drag snap hit_point transform)

/-- `interaction.rs::end_drag`. -/
def end_drag (just_released : Bool) (state : TransformGizmoState) :
    TransformGizmoState :=
  if just_released then { state with drag := none } else state

/-- `lib.rs::sync_active_target`: `first_active` models
`query.iter().next()` over entities carrying both `TransformGizmoTarget`
and `GizmoActive`. -/
def sync_active_target (state : TransformGizmoState)
    (first_active : Option Entity) : TransformGizmoState :=
  match first_active with
  | some e => { state with active_target := some e }
  | none => state

/-! ### Accepted hits (for stating the hover tie-break claims) -/

/-- All accepted handle hits of one target: the results of every handle
test of `update_hovered_axis` for a target whose bounding sphere the ray
intersects, tagged with the owning entity.  (This leaves out only the two
scan-order gates, `bounds_t > best_t` and `t < best_t`.) -/
def accepted_target_hits (style : TransformGizmoStyle)
    (space : TransformGizmoSpace) (ray : Ray) (p : Entity × GlobalTransform) :
    List (ℝ × Entity × GizmoOperation × GizmoAxis) :=
  let frame := GizmoFrame.new p.2 space
  match ray_sphere_intersection ray frame.origin style.bounds_radius with
  | none => []
  | some _ =>
    (target_hits style ray frame).filterMap
      (fun h => h.map (fun q => (q.1, p.1, q.2.1, q.2.2)))

/-- All accepted handle hits across all targets, in iteration order. -/
def accepted_hits (style : TransformGizmoStyle) (space : TransformGizmoSpace)
    (ray : Ray) (targets : List (Entity × GlobalTransform)) :
    List (ℝ × Entity × GizmoOperation × GizmoAxis) :=
  (targets.map (accepted_target_hits style space ray)).flatten

/-- Modelled from the spec's words (claim C8): "among all accepted hits
across all targets and handle types, keep the one with smallest ray
parameter t", and "when no handle is hit both hovered axis and hovered
operation are cleared to none" — stated for one hit-test pass with the
given host inputs. -/
def spec_hover_is_min (state : TransformGizmoState)
    (style : TransformGizmoStyle) (cam : Camera) (win : Window)
    (targets : List (Entity × GlobalTransform)) : Prop :=
  state.drag = none →
  ∀ cp ray, win.cursorPos = some cp → cam.viewportToWorld cp = some ray →
    let s1 := update_hovered_axis state style (some cam) (some win) targets
    let hits := accepted_hits style state.space ray targets
    (hits = [] → s1.hovered_axis = none ∧ s1.hovered_op = none) ∧
    (hits ≠ [] → ∃ e op ax t, s1.active_target = some e ∧
      s1.hovered_op = some op ∧ s1.hovered_axis = some ax ∧
      (t, e, op, ax) ∈ hits ∧ ∀ h ∈ hits, t ≤ h.1)

/-! ### Concrete instances used to exercise the systems -/

/-- An identity local transform. -/
def trId : Transform :=
  { translation := ⟨0, 0, 0⟩, rotation := Quat.id3, scale := ⟨1, 1, 1⟩ }

/-- Snapping disabled everywhere. -/
def snapNone : TransformGizmoSnap :=
  ⟨AxisSnap.allNone, AxisSnap.allNone, AxisSnap.allNone⟩

/-- A window with a cursor at the viewport origin. -/
def winCx : Window := ⟨some ⟨0, 0⟩⟩

/-- A camera at the world origin whose viewport-to-world conversion yields
the given ray. -/
def camOf (r : Ray) : Camera :=
  { transform := ⟨⟨0, 0, 0⟩, Quat.id3, ⟨1, 1, 1⟩⟩
    viewportToWorld := fun _ => some r }

/-- A drag snapshot for a translate-axis drag along world `X`, projected on
the plane `z = 0`, captured with start parameter `1`. -/
def baseDrag : TransformGizmoDrag :=
  { target := 0, op := .TranslateAxis, axis := .X
    origin := ⟨0, 0, 0⟩, axis_dir := ⟨1, 0, 0⟩
    plane_normal := ⟨0, 0, 1⟩, plane_origin := ⟨0, 0, 0⟩
    plane_dir1 := 0, plane_dir2 := 0, plane_axis1 := .X, plane_axis2 := .Y
    start_translation := ⟨0, 0, 0⟩, start_rotation := Quat.id3
    start_scale := ⟨1, 1, 1⟩, start_t := 1, start_vector := 0 }

/-- A gizmo state holding the given active drag. -/
def stateOf (d : TransformGizmoDrag) : TransformGizmoState :=
  { mode := .Translate, space := .World, active_target := some 0
    hovered_axis := some .X, hovered_op := some .TranslateAxis
    drag := some d }

/-- A uniform-scale drag whose start scale has a negative `x` component. -/
def dragCx2 : TransformGizmoDrag :=
  { baseDrag with op := .ScaleUniform, start_scale := ⟨-1, 1, 1⟩ }

/-- A ray parallel to the plane `z = 0` of `baseDrag`. -/
def rayPar : Ray := ⟨⟨0, 0, 5⟩, ⟨1, 0, 0⟩⟩

/-- A ray meeting the plane `z = 0` at the world origin. -/
def rayHit0 : Ray := ⟨⟨0, 0, -1⟩, ⟨0, 0, 1⟩⟩

/-- A translate-axis drag with start parameter `0`. -/
def dragCx7 : TransformGizmoDrag := { baseDrag with start_t := 0 }

/-- A ray meeting the plane `z = 0` at `(3, 0, 0)`. -/
def rayCx7 : Ray := ⟨⟨3, 0, -1⟩, ⟨0, 0, 1⟩⟩

/-- Snapping configured with increment `2` on the translate `X` axis. -/
def snapCx7 : TransformGizmoSnap :=
  { translate := ⟨some 2, none, none⟩, rotate := AxisSnap.allNone
    scale := AxisSnap.allNone }

/-- An idle gizmo state: nothing active, hovered or dragged; world space. -/
def stateIdle : TransformGizmoState :=
  { mode := .Translate, space := .World, active_target := none
    hovered_axis := none, hovered_op := none, drag := none }

/-- The hit-test ray used for the hover-scan scenario: from the world
origin along `+z`. -/
def rayCx8 : Ray := ⟨⟨0, 0, 0⟩, ⟨0, 0, 1⟩⟩

/-- Hover-scan scenario, first target: at `(0,0,5)` on the ray, unrotated. -/
def gA : GlobalTransform :=
  { translation := ⟨0, 0, 5⟩, rotation := Quat.id3, scale := ⟨1, 1, 1⟩ }

/-- Hover-scan scenario, second target: at `(4,0,7.2)`, rotated a half turn
about `Y` (so its local `X` axis points along world `-X`, placing its scale
cube for axis `X` at `(0, 0, 7.2)`, on the ray). -/
def gB : GlobalTransform :=
  { translation := ⟨4, 0, 7.2⟩, rotation := ⟨0, 1, 0, 0⟩, scale := ⟨1, 1, 1⟩ }

/-- Hover-scan scenario style: only scale cubes and the uniform-scale
handle enabled; a bounding sphere of radius `5`, scale cubes offset `4`
along each scale axis with hit radius `3.5`, uniform handle hit radius
`1`. -/
def styleCx8 : TransformGizmoStyle :=
  { show_translate := false
    translate_axes := ⟨true, true, true⟩
    show_rotate := false
    rotate_axes := ⟨true, true, true⟩
    show_scale := true
    scale_axes := ⟨true, true, true⟩
    axis_length := 4
    translate_cone_length := 0.4
    translate_hit_radius := 0.36
    scale_cube_offset := 1
    scale_hit_radius := 3.5
    rotation_arc_degrees := 30
    rotation_hit_thickness := 0.25
    bounds_radius := 5
    show_translate_planes := false
    translate_plane_size := 0.5
    translate_plane_offset := 0.35
    translate_plane_hit_thickness := 0.1
    show_scale_uniform := true
    scale_uniform_hit_radius := 1 }

end

/-! ### Componentwise lemmas for the vector operations -/

@[simp] theorem Vec3.add_x (a b : Vec3) : (a + b).x = a.x + b.x := rfl

@[simp] theorem Vec3.add_y (a b : Vec3) : (a + b).y = a.y + b.y := rfl

@[simp] theorem Vec3.add_z (a b : Vec3) : (a + b).z = a.z + b.z := rfl

@[simp] theorem Vec3.sub_x (a b : Vec3) : (a - b).x = a.x - b.x := rfl

@[simp] theorem Vec3.sub_y (a b : Vec3) : (a - b).y = a.y - b.y := rfl

@[simp] theorem Vec3.sub_z (a b : Vec3) : (a - b).z = a.z - b.z := rfl

@[simp] theorem Vec3.neg_xc (a : Vec3) : (-a).x = -a.x := rfl

@[simp] theorem Vec3.neg_yc (a : Vec3) : (-a).y = -a.y := rfl

@[simp] theorem Vec3.neg_zc (a : Vec3) : (-a).z = -a.z := rfl

@[simp] theorem Vec3.smul_x (s : ℝ) (a : Vec3) : (s • a).x = s * a.x := rfl

@[simp] theorem Vec3.smul_y (s : ℝ) (a : Vec3) : (s • a).y = s * a.y := rfl

@[simp] theorem Vec3.smul_z (s : ℝ) (a : Vec3) : (s • a).z = s * a.z := rfl

@[simp] theorem Vec3.mulScalar_x (a : Vec3) (s : ℝ) : (a.mulScalar s).x = a.x * s := rfl

@[simp] theorem Vec3.mulScalar_y (a : Vec3) (s : ℝ) : (a.mulScalar s).y = a.y * s := rfl

@[simp] theorem Vec3.mulScalar_z (a : Vec3) (s : ℝ) : (a.mulScalar s).z = a.z * s := rfl

@[simp] theorem Vec3.zero_xc : (0 : Vec3).x = 0 := rfl

@[simp] theorem Vec3.zero_yc : (0 : Vec3).y = 0 := rfl

@[simp] theorem Vec3.zero_zc : (0 : Vec3).z = 0 := rfl

theorem Vec3.eq_iff_comps (a b : Vec3) : a = b ↔ a.x = b.x ∧ a.y = b.y ∧ a.z = b.z := by
  constructor
  · intro h
    subst h
    exact ⟨rfl, rfl, rfl⟩
  · rintro ⟨h1, h2, h3⟩
    cases a
    cases b
    simp_all

/-! ### Claim theorems (math and frame builder) -/

/-- **C4**: for every target transform, axis and space setting, the
translate and rotate basis directions equal the world unit axis when
`space = World` and the target-rotation-applied unit axis when
`space = Local`, while the scale basis direction is always the
target-rotation-applied unit axis. -/
theorem c4_frame_basis_directions (tr : GlobalTransform) (axis : GizmoAxis)
    (space : TransformGizmoSpace) :
    ((GizmoFrame.new tr space).axis_dir axis .Translate =
      match space with
      | .World => axis.to_vec3
      | .Local => tr.rotation.rotate axis.to_vec3) ∧
    ((GizmoFrame.new tr space).axis_dir axis .Rotate =
      match space with
      | .World => axis.to_vec3
      | .Local => tr.rotation.rotate axis.to_vec3) ∧
    (GizmoFrame.new tr space).axis_dir axis .Scale =
      tr.rotation.rotate axis.to_vec3 := by
  cases space <;> cases axis <;>
    exact ⟨rfl, rfl, rfl⟩

/-- **C6**: a ray parallel to the plane (|dot(normal, direction)| below the
parallel epsilon) yields no intersection, and any returned intersection
point lies exactly on the plane: `dot(point − plane_origin, normal) = 0`
(in particular within any positive epsilon). -/
theorem c6_ray_plane_intersection_sound (ray : Ray) (po n : Vec3) :
    (|n.dot ray.dir| < PLANE_EPSILON →
      ray_plane_intersection ray po n = none) ∧
    (∀ p : Vec3, ray_plane_intersection ray po n = some p →
      (p - po).dot n = 0) := by
  constructor
  · intro h
    unfold ray_plane_intersection
    simp only [if_pos h]
  · intro p hp
    unfold ray_plane_intersection at hp
    by_cases hpar : |n.dot ray.dir| < PLANE_EPSILON
    · simp [hpar] at hp
    · simp only [if_neg hpar] at hp
      by_cases hneg : (po - ray.origin).dot n / n.dot ray.dir < 0
      · simp [hneg] at hp
      · simp only [if_neg hneg, Option.some.injEq] at hp
        have hd : n.dot ray.dir ≠ 0 := by
          intro h0
          rw [h0] at hpar
          exact hpar (by norm_num [PLANE_EPSILON])
        subst hp
        simp only [Vec3.dot, Vec3.sub_x, Vec3.sub_y, Vec3.sub_z, Vec3.add_x,
          Vec3.add_y, Vec3.add_z, Vec3.smul_x, Vec3.smul_y, Vec3.smul_z] at hd ⊢
        field_simp
        ring

/-- Witness for C6 at a concrete ray and plane: the ray from `(0,0,-1)`
along `+z` meets the plane `z = 0` in a point that satisfies the plane
equation exactly. -/
theorem c6_ray_plane_intersection_sound_witness :
    ∀ p : Vec3,
      ray_plane_intersection ⟨⟨0, 0, -1⟩, ⟨0, 0, 1⟩⟩ ⟨0, 0, 0⟩ ⟨0, 0, 1⟩ = some p →
      (p - (⟨0, 0, 0⟩ : Vec3)).dot ⟨0, 0, 1⟩ = 0 :=
  (c6_ray_plane_intersection_sound ⟨⟨0, 0, -1⟩, ⟨0, 0, 1⟩⟩ ⟨0, 0, 0⟩ ⟨0, 0, 1⟩).2

/-- **C9**: when `(plane_origin − ray.origin)·normal` and
`normal·direction` have opposite signs the computed ray parameter is
negative (the plane lies behind the ray's origin), and the intersection
returns `none`; this also subsumes the parallel case. -/
theorem c9_ray_plane_behind_origin_none (ray : Ray) (po n : Vec3)
    (h : (po - ray.origin).dot n * n.dot ray.dir < 0) :
    ray_plane_intersection ray po n = none := by
  unfold ray_plane_intersection
  by_cases hpar : |n.dot ray.dir| < PLANE_EPSILON
  · simp only [if_pos hpar]
  · simp only [if_neg hpar]
    have hd : n.dot ray.dir ≠ 0 := by
      intro h0
      rw [h0, mul_zero] at h
      exact lt_irrefl 0 h
    have ht : (po - ray.origin).dot n / n.dot ray.dir < 0 :=
      div_neg_iff.mpr (by
        rcases lt_or_gt_of_ne hd with hn | hp
        · exact Or.inl ⟨by nlinarith, hn⟩
        · exact Or.inr ⟨by nlinarith, hp⟩)
    simp only [if_pos ht]

/-- Witness for C9: the plane `z = 0` reached walking backwards along the
ray from `(0,0,1)` in direction `+z` gives no intersection. -/
theorem c9_ray_plane_behind_origin_none_witness :
    ray_plane_intersection ⟨⟨0, 0, 1⟩, ⟨0, 0, 1⟩⟩ ⟨0, 0, 0⟩ ⟨0, 0, 1⟩ = none := by
  apply c9_ray_plane_behind_origin_none
  show ((⟨0, 0, 0⟩ : Vec3) - ⟨0, 0, 1⟩).dot ⟨0, 0, 1⟩ * Vec3.dot ⟨0, 0, 1⟩ ⟨0, 0, 1⟩ < 0
  norm_num [Vec3.dot, Vec3.sub, HSub.hSub, Sub.sub]

/-! ### Evaluation lemmas for `ray_sphere_intersection` -/

theorem ray_sphere_eval_away (ray : Ray) (center : Vec3) (radius : ℝ)
    (hc : 0 < (ray.origin - center).lengthSq - radius * radius)
    (hb : 0 < (ray.origin - center).dot ray.dir) :
    ray_sphere_intersection ray center radius = none := by
  simp only [ray_sphere_intersection]
  rw [if_pos ⟨hc, hb⟩]

theorem ray_sphere_eval_miss (ray : Ray) (center : Vec3) (radius : ℝ)
    (hn : ¬(0 < (ray.origin - center).lengthSq - radius * radius ∧
      0 < (ray.origin - center).dot ray.dir))
    (hd : (ray.origin - center).dot ray.dir * (ray.origin - center).dot ray.dir -
      ((ray.origin - center).lengthSq - radius * radius) < 0) :
    ray_sphere_intersection ray center radius = none := by
  simp only [ray_sphere_intersection]
  rw [if_neg hn, if_pos hd]

theorem ray_sphere_eval_hit (ray : Ray) (center : Vec3) (radius s : ℝ)
    (hs : 0 ≤ s)
    (hsq : s ^ 2 = (ray.origin - center).dot ray.dir *
      (ray.origin - center).dot ray.dir -
      ((ray.origin - center).lengthSq - radius * radius))
    (hn : ¬(0 < (ray.origin - center).lengthSq - radius * radius ∧
      0 < (ray.origin - center).dot ray.dir))
    (ht : 0 ≤ -((ray.origin - center).dot ray.dir) - s) :
    ray_sphere_intersection ray center radius =
      some (-((ray.origin - center).dot ray.dir) - s) := by
  simp only [ray_sphere_intersection]
  rw [if_neg hn, if_neg (by rw [← hsq]; exact not_lt.mpr (sq_nonneg s)),
    ← hsq, Real.sqrt_sq hs, if_neg (not_lt.mpr ht)]

theorem ray_sphere_eval_hit_zero (ray : Ray) (center : Vec3) (radius s : ℝ)
    (hs : 0 ≤ s)
    (hsq : s ^ 2 = (ray.origin - center).dot ray.dir *
      (ray.origin - center).dot ray.dir -
      ((ray.origin - center).lengthSq - radius * radius))
    (hn : ¬(0 < (ray.origin - center).lengthSq - radius * radius ∧
      0 < (ray.origin - center).dot ray.dir))
    (ht : -((ray.origin - center).dot ray.dir) - s < 0) :
    ray_sphere_intersection ray center radius = some 0 := by
  simp only [ray_sphere_intersection]
  rw [if_neg hn, if_neg (by rw [← hsq]; exact not_lt.mpr (sq_nonneg s)),
    ← hsq, Real.sqrt_sq hs, if_pos ht]

/-- **C5**: for a ray with unit direction and a positive radius, an origin
strictly inside the sphere yields a hit with `t = 0`, and an origin outside
the sphere with the direction pointing away from it (positive dot product
with origin-minus-center) yields no intersection. -/
theorem c5_ray_sphere_inside_zero_away_none (ray : Ray) (center : Vec3)
    (radius : ℝ) (hunit : ray.dir.lengthSq = 1) (hr : 0 < radius) :
    ((ray.origin - center).lengthSq < radius * radius →
      ray_sphere_intersection ray center radius = some 0) ∧
    (radius * radius < (ray.origin - center).lengthSq →
      0 < (ray.origin - center).dot ray.dir →
      ray_sphere_intersection ray center radius = none) := by
  constructor
  · intro hin
    have hc : (ray.origin - center).lengthSq - radius * radius < 0 := by linarith
    simp only [ray_sphere_intersection]
    rw [if_neg (by rintro ⟨h1, _⟩; linarith)]
    set b := (ray.origin - center).dot ray.dir with hbdef
    have hdiscr : 0 < b * b - ((ray.origin - center).lengthSq - radius * radius) := by
      nlinarith [mul_self_nonneg b]
    rw [if_neg (not_lt.mpr (le_of_lt hdiscr))]
    have hroot : -b < Real.sqrt (b * b - ((ray.origin - center).lengthSq - radius * radius)) := by
      rcases lt_or_le (-b) 0 with hneg | hpos
      · exact lt_of_lt_of_le hneg (Real.sqrt_nonneg _)
      · rw [show b * b - ((ray.origin - center).lengthSq - radius * radius) =
          (-b) ^ 2 - ((ray.origin - center).lengthSq - radius * radius) by ring]
        exact (Real.lt_sqrt hpos).mpr (by nlinarith)
    rw [if_pos (by linarith)]
  · intro hout hb
    exact ray_sphere_eval_away ray center radius (by linarith) hb

/-- Witness for C5: the unit sphere at the origin is hit at `t = 0` from
the inside point `(0,0,0)`, and missed from `(3,0,0)` walking along `+x`. -/
theorem c5_ray_sphere_inside_zero_away_none_witness :
    ray_sphere_intersection ⟨⟨0, 0, 0⟩, ⟨1, 0, 0⟩⟩ ⟨0, 0, 0⟩ 1 = some 0 ∧
    ray_sphere_intersection ⟨⟨3, 0, 0⟩, ⟨1, 0, 0⟩⟩ ⟨0, 0, 0⟩ 1 = none := by
  constructor
  · exact (c5_ray_sphere_inside_zero_away_none ⟨⟨0, 0, 0⟩, ⟨1, 0, 0⟩⟩ ⟨0, 0, 0⟩ 1
      (by norm_num [Vec3.lengthSq]) (by norm_num)).1
      (by norm_num [Vec3.lengthSq])
  · exact (c5_ray_sphere_inside_zero_away_none ⟨⟨3, 0, 0⟩, ⟨1, 0, 0⟩⟩ ⟨0, 0, 0⟩ 1
      (by norm_num [Vec3.lengthSq]) (by norm_num)).2
      (by norm_num [Vec3.lengthSq]) (by norm_num [Vec3.dot])

/-! ### Structure extensionality helpers -/

theorem Quat.eq_iff_quat_comps (a b : Quat) :
    a = b ↔ a.x = b.x ∧ a.y = b.y ∧ a.z = b.z ∧ a.w = b.w := by
  constructor
  · intro h
    subst h
    exact ⟨rfl, rfl, rfl, rfl⟩
  · rintro ⟨h1, h2, h3, h4⟩
    cases a
    cases b
    simp_all

theorem Transform.eq_iff_fields (a b : Transform) :
    a = b ↔ a.translation = b.translation ∧ a.rotation = b.rotation ∧
      a.scale = b.scale := by
  constructor
  · intro h
    subst h
    exact ⟨rfl, rfl, rfl⟩
  · rintro ⟨h1, h2, h3⟩
    cases a
    cases b
    simp_all

/-! ### Reduction of `drag_gizmo` when every input is present -/

theorem drag_gizmo_reduce (state : TransformGizmoState)
    (drag : TransformGizmoDrag) (cam : Camera) (win : Window) (cp : Vec2)
    (ray : Ray) (snap : TransformGizmoSnap) (tt : Transform)
    (hd : state.drag = some drag) (hcp : win.cursorPos = some cp)
    (hray : cam.viewportToWorld cp = some ray) :
    drag_gizmo state true (some cam) (some win) snap (some tt) =
      some (apply_drag_op drag snap
        ((ray_plane_intersection ray drag.plane_origin drag.plane_normal).getD
          drag.origin) tt) := by
  unfold drag_gizmo
  rw [hd]
  simp [hcp, hray]

/-! ### Claim C1: degenerate-input handling of the drag update -/

/-- **C1** (amended): every missing-input condition of a drag-update frame —
no camera, no window, no cursor position, failed cursor-to-ray conversion,
button not pressed, missing target, or no active drag — writes nothing to
the target (a strict no-op).  A near-parallel ray/plane intersection is
*not* a no-op: with all inputs present the update always runs, substituting
the drag origin for a failed intersection (`unwrap_or(drag.origin)`) and
applying the delta derived from that substitute point. -/
theorem c1_drag_degenerate_conditions :
    (∀ state pressed window snap tt,
      drag_gizmo state pressed none window snap tt = none) ∧
    (∀ state pressed camera snap tt,
      drag_gizmo state pressed camera none snap tt = none) ∧
    (∀ state pressed cam (win : Window) snap tt, win.cursorPos = none →
      drag_gizmo state pressed (some cam) (some win) snap tt = none) ∧
    (∀ state pressed (cam : Camera) (win : Window) cp snap tt,
      win.cursorPos = some cp → cam.viewportToWorld cp = none →
      drag_gizmo state pressed (some cam) (some win) snap tt = none) ∧
    (∀ state camera window snap tt,
      drag_gizmo state false camera window snap tt = none) ∧
    (∀ state pressed camera window snap,
      drag_gizmo state pressed camera window snap none = none) ∧
    (∀ pressed camera window snap tt (state : TransformGizmoState),
      state.drag = none → drag_gizmo state pressed camera window snap tt = none) ∧
    (∀ (state : TransformGizmoState) drag (cam : Camera) (win : Window) cp ray
      snap tt, state.drag = some drag → win.cursorPos = some cp →
      cam.viewportToWorld cp = some ray →
      drag_gizmo state true (some cam) (some win) snap (some tt) =
        some (apply_drag_op drag snap
          ((ray_plane_intersection ray drag.plane_origin
            drag.plane_normal).getD drag.origin) tt)) := by
  refine ⟨?_, ?_, ?_, ?_, ?_, ?_, ?_, ?_⟩
  · intro state pressed window snap tt
    cases hsd : state.drag <;> cases pressed <;> simp [drag_gizmo, hsd]
  · intro state pressed camera snap tt
    cases hsd : state.drag <;> cases pressed <;> rcases camera with _ | cam <;>
      simp [drag_gizmo, hsd]
  · intro state pressed cam win snap tt h
    cases hsd : state.drag <;> cases pressed <;> simp [drag_gizmo, hsd, h]
  · intro state pressed cam win cp snap tt h1 h2
    cases hsd : state.drag <;> cases pressed <;> simp [drag_gizmo, hsd, h1, h2]
  · intro state camera window snap tt
    cases hsd : state.drag <;> simp [drag_gizmo, hsd]
  · intro state pressed camera window snap
    cases hsd : state.drag
    · cases pressed <;> simp [drag_gizmo, hsd]
    · cases pressed
      · simp [drag_gizmo, hsd]
      · rcases camera with _ | cam
        · simp [drag_gizmo, hsd]
        · rcases window with _ | win
          · simp [drag_gizmo, hsd]
          · rcases hw : win.cursorPos with _ | cp
            · simp [drag_gizmo, hsd, hw]
            · rcases hr : cam.viewportToWorld cp with _ | ray <;>
                simp [drag_gizmo, hsd, hw, hr]
  · intro pressed camera window snap tt state h
    simp [drag_gizmo, h]
  · intro state drag cam win cp ray snap tt hd hcp hray
    exact drag_gizmo_reduce state drag cam win cp ray snap tt hd hcp hray

/-- Witness for C1 (amended): with the cursor missing, a frame of an active
translate drag writes nothing. -/
theorem c1_drag_degenerate_conditions_witness :
    drag_gizmo (stateOf baseDrag) true (some (camOf rayPar)) (some ⟨none⟩)
      snapNone (some trId) = none :=
  c1_drag_degenerate_conditions.2.2.1 (stateOf baseDrag) true (camOf rayPar)
    ⟨none⟩ snapNone (some trId) rfl

/-- Counterexample for C1 as stated: a ray exactly parallel to the drag
plane (dot product `0 < PLANE_EPSILON`) does *not* leave the target's
transform unchanged — the update substitutes the drag origin for the failed
intersection and translates the target to `(-1, 0, 0)`. -/
theorem c1_parallel_drag_changes_transform :
    |Vec3.dot baseDrag.plane_normal rayPar.dir| < PLANE_EPSILON ∧
    drag_gizmo (stateOf baseDrag) true (some (camOf rayPar)) (some winCx)
      snapNone (some trId) = some { trId with translation := ⟨-1, 0, 0⟩ } ∧
    (⟨-1, 0, 0⟩ : Vec3) ≠ trId.translation := by
  refine ⟨by norm_num [baseDrag, rayPar, Vec3.dot, PLANE_EPSILON], ?_, ?_⟩
  · rw [drag_gizmo_reduce (stateOf baseDrag) baseDrag (camOf rayPar) winCx
      ⟨0, 0⟩ rayPar snapNone trId rfl rfl rfl]
    have hpl : ray_plane_intersection rayPar baseDrag.plane_origin
        baseDrag.plane_normal = none := by
      simp only [ray_plane_intersection, rayPar, baseDrag, Vec3.dot]
      norm_num [PLANE_EPSILON]
    rw [hpl]
    simp only [Option.getD_none, apply_drag_op, baseDrag, snap_delta, snapNone,
      AxisSnap.allNone, AxisSnap.get, Option.some.injEq]
    simp [Transform.eq_iff_fields, Vec3.eq_iff_comps, Vec3.dot, trId]
  · simp [trId, Vec3.eq_iff_comps]

/-! ### Claim C2: uniform-scale floor -/

/-- **C2** (amended): in every `ScaleUniform` drag update that runs, the
*uniform factor* is clamped to the floor `0.001`, and the written scale is
the start scale multiplied componentwise by that clamped factor.  The
component values themselves are therefore bounded away from zero and
positive only when the corresponding start-scale components are; a start
scale with a zero or negative component yields a zero or negative result
component. -/
theorem c2_scale_uniform_factor_floor (state : TransformGizmoState)
    (drag : TransformGizmoDrag) (cam : Camera) (win : Window) (cp : Vec2)
    (ray : Ray) (snap : TransformGizmoSnap) (tt : Transform)
    (hd : state.drag = some drag) (hop : drag.op = GizmoOperation.ScaleUniform)
    (hcp : win.cursorPos = some cp) (hray : cam.viewportToWorld cp = some ray) :
    ∃ f : ℝ, (0.001 : ℝ) ≤ f ∧
      drag_gizmo state true (some cam) (some win) snap (some tt) =
        some { tt with scale := drag.start_scale.mulScalar f } := by
  rw [drag_gizmo_reduce state drag cam win cp ray snap tt hd hcp hray]
  simp only [apply_drag_op, hop]
  exact ⟨_, le_max_right _ _, rfl⟩

/-- Witness for C2 (amended) at a concrete uniform-scale drag frame. -/
theorem c2_scale_uniform_factor_floor_witness :
    ∃ f : ℝ, (0.001 : ℝ) ≤ f ∧
      drag_gizmo (stateOf dragCx2) true (some (camOf rayHit0)) (some winCx)
        snapNone (some trId) =
        some { trId with scale := dragCx2.start_scale.mulScalar f } :=
  c2_scale_uniform_factor_floor (stateOf dragCx2) dragCx2 (camOf rayHit0)
    winCx ⟨0, 0⟩ rayHit0 snapNone trId rfl rfl rfl rfl

/-- Counterexample for C2 as stated: a uniform-scale drag whose snapshot
starts from scale `(-1, 1, 1)`, dragged so the current distance collapses
to `0`, writes the scale `(-0.001, 0.001, 0.001)` — its `x` component is
negative, so the final scale is *not* clamped to a positive floor in every
component. -/
theorem c2_scale_uniform_negative_component :
    drag_gizmo (stateOf dragCx2) true (some (camOf rayHit0)) (some winCx)
      snapNone (some trId) =
      some { trId with scale := ⟨-(1 / 1000), 1 / 1000, 1 / 1000⟩ } ∧
    (-(1 / 1000) : ℝ) < 0 := by
  refine ⟨?_, by norm_num⟩
  rw [drag_gizmo_reduce (stateOf dragCx2) dragCx2 (camOf rayHit0) winCx
    ⟨0, 0⟩ rayHit0 snapNone trId rfl rfl rfl]
  have hpl : ray_plane_intersection rayHit0 dragCx2.plane_origin
      dragCx2.plane_normal = some ⟨0, 0, 0⟩ := by
    simp only [ray_plane_intersection, rayHit0, dragCx2, baseDrag, Vec3.dot]
    norm_num [PLANE_EPSILON, Vec3.eq_iff_comps]
  rw [hpl]
  simp only [Option.getD_some, apply_drag_op, dragCx2, baseDrag, snapNone,
    AxisSnap.allNone, AxisSnap.get, Option.some.injEq, Option.getD_none]
  have hv : (⟨0, 0, 0⟩ : Vec3) - ⟨0, 0, 0⟩ = (0 : Vec3) := by
    simp [Vec3.eq_iff_comps]
  rw [hv]
  have hlen : Vec3.length 0 = 0 := by
    simp [Vec3.length, Vec3.lengthSq]
  rw [hlen]
  norm_num [MIN_SCALE_DIVISOR]
  simp [Transform.eq_iff_fields, Vec3.eq_iff_comps, trId]

/-! ### Claim C7: translate-axis snapping -/

/-- **C7**: in every `TranslateAxis` drag update that runs, the written
translation is the start translation plus `d` times the axis direction,
where the applied scalar delta `d` is an exact integer multiple of the
configured snap increment `s` whenever `s > 0` is configured for the
dragged axis, and is the unmodified continuous delta (projected scalar
minus start scalar) when no increment is configured. -/
theorem c7_translate_axis_snap_multiple (state : TransformGizmoState)
    (drag : TransformGizmoDrag) (cam : Camera) (win : Window) (cp : Vec2)
    (ray : Ray) (snap : TransformGizmoSnap) (tt : Transform)
    (hd : state.drag = some drag) (hop : drag.op = GizmoOperation.TranslateAxis)
    (hcp : win.cursorPos = some cp) (hray : cam.viewportToWorld cp = some ray) :
    ∃ d : ℝ,
      drag_gizmo state true (some cam) (some win) snap (some tt) =
        some { tt with translation :=
          drag.start_translation + d • drag.axis_dir } ∧
      (∀ s, snap.translate.get drag.axis = some s → 0 < s →
        ∃ k : ℤ, d = (k : ℝ) * s) ∧
      (snap.translate.get drag.axis = none →
        d = (((ray_plane_intersection ray drag.plane_origin
          drag.plane_normal).getD drag.origin) - drag.origin).dot drag.axis_dir -
          drag.start_t) := by
  rw [drag_gizmo_reduce state drag cam win cp ray snap tt hd hcp hray]
  simp only [apply_drag_op, hop]
  refine ⟨_, rfl, ?_, ?_⟩
  · intro s hs hpos
    simp only [snap_delta, hs, if_pos hpos]
    exact ⟨_, rfl⟩
  · intro hs
    simp only [snap_delta, hs]

/-- Witness for C7: a concrete translate-axis drag with snap increment `2`
on `X`, dragged from start scalar `0` to projected scalar `3`. -/
theorem c7_translate_axis_snap_multiple_witness :
    ∃ d : ℝ,
      drag_gizmo (stateOf dragCx7) true (some (camOf rayCx7)) (some winCx)
        snapCx7 (some trId) =
        some { trId with translation :=
          dragCx7.start_translation + d • dragCx7.axis_dir } ∧
      (∀ s, snapCx7.translate.get dragCx7.axis = some s → 0 < s →
        ∃ k : ℤ, d = (k : ℝ) * s) ∧
      (snapCx7.translate.get dragCx7.axis = none →
        d = (((ray_plane_intersection rayCx7 dragCx7.plane_origin
          dragCx7.plane_normal).getD dragCx7.origin) - dragCx7.origin).dot
          dragCx7.axis_dir - dragCx7.start_t) :=
  c7_translate_axis_snap_multiple (stateOf dragCx7) dragCx7 (camOf rayCx7)
    winCx ⟨0, 0⟩ rayCx7 snapCx7 trId rfl rfl rfl rfl

/-! ### Claim C3: drag mutual exclusion -/

/-- **C3**: at most one drag exists (the state holds a single
`Option TransformGizmoDrag`), and a primary-button press while a drag is
active leaves the whole state — in particular the stored snapshot with all
its captured values — exactly unchanged.  Moreover no system other than
`begin_drag` on a press with hover ever creates a drag: `begin_drag`
changes the drag field only when the button was just pressed, no drag
exists, and both a hovered axis and a hovered operation are present;
`update_hovered_axis` and `sync_active_target` never touch the drag; and
`end_drag` only clears it.  (`drag_gizmo` writes no state at all: it only
returns the target's new transform.) -/
theorem c3_single_drag_mutual_exclusion :
    (∀ jp (state : TransformGizmoState) cam win tg d, state.drag = some d →
      begin_drag jp state cam win tg = state) ∧
    (∀ jp (state : TransformGizmoState) cam win tg,
      (begin_drag jp state cam win tg).drag ≠ state.drag →
      jp = true ∧ state.drag = none ∧
      (∃ ax, state.hovered_axis = some ax) ∧
      (∃ op, state.hovered_op = some op)) ∧
    (∀ (state : TransformGizmoState) style cam win targets,
      (update_hovered_axis state style cam win targets).drag = state.drag) ∧
    (∀ (state : TransformGizmoState) e,
      (sync_active_target state e).drag = state.drag) ∧
    (∀ b (state : TransformGizmoState), state.drag = none →
      (end_drag b state).drag = none) := by
  refine ⟨?_, ?_, ?_, ?_, ?_⟩
  · intro jp state cam win tg d h
    cases jp <;> simp [begin_drag, h]
  · intro jp state cam win tg hne
    cases jp
    · exfalso
      have h0 : begin_drag false state cam win tg = state := by
        simp [begin_drag]
      rw [h0] at hne
      exact hne rfl
    · cases hsd : state.drag with
      | some d =>
        exfalso
        have h0 : begin_drag true state cam win tg = state := by
          simp [begin_drag, hsd]
        rw [h0] at hne
        exact hne rfl
      | none =>
        cases hha : state.hovered_axis with
        | none =>
          exfalso
          have h0 : begin_drag true state cam win tg = state := by
            simp [begin_drag, hsd, hha]
          rw [h0] at hne
          exact hne rfl
        | some ax =>
          cases hho : state.hovered_op with
          | none =>
            exfalso
            have h0 : begin_drag true state cam win tg = state := by
              simp [begin_drag, hsd, hha, hho]
            rw [h0] at hne
            exact hne rfl
          | some op =>
            exact ⟨rfl, rfl, ⟨ax, rfl⟩, ⟨op, rfl⟩⟩
  · intro state style cam win targets
    unfold update_hovered_axis clear_hover
    repeat' split
    all_goals rfl
  · intro state e
    cases e <;> rfl
  · intro b state h
    cases b <;> simp [end_drag, h]

/-- Witness for C3 at a concrete state holding an active drag: the press is
rejected and the state survives verbatim. -/
theorem c3_single_drag_mutual_exclusion_witness :
    begin_drag true (stateOf baseDrag) (some (camOf rayPar)) (some winCx)
      (some ⟨⟨0, 0, 0⟩, Quat.id3, ⟨1, 1, 1⟩⟩) = stateOf baseDrag :=
  c3_single_drag_mutual_exclusion.1 true (stateOf baseDrag)
    (some (camOf rayPar)) (some winCx)
    (some ⟨⟨0, 0, 0⟩, Quat.id3, ⟨1, 1, 1⟩⟩) baseDrag rfl

/-! ### Fold lemmas for the hover scan -/

theorem consider_hit_sound (e : Entity) (acc : HoverBest) (h : Option Hit) :
    consider_hit e acc h = acc ∨
    ∃ q : Hit, h = some q ∧
      consider_hit e acc h = some (q.1, e, q.2.1, q.2.2) := by
  rcases h with _ | ⟨t, op, ax⟩
  · exact Or.inl rfl
  · rcases acc with _ | ⟨bt, be, bop, bax⟩
    · exact Or.inr ⟨(t, op, ax), rfl, rfl⟩
    · by_cases hlt : t < bt
      · exact Or.inr ⟨(t, op, ax), rfl, by simp [consider_hit, if_pos hlt]⟩
      · exact Or.inl (by simp [consider_hit, if_neg hlt])

theorem foldl_consider_sound (e : Entity) (hits : List (Option Hit)) :
    ∀ acc : HoverBest,
      hits.foldl (consider_hit e) acc = acc ∨
      ∃ q : Hit, some q ∈ hits ∧
        hits.foldl (consider_hit e) acc = some (q.1, e, q.2.1, q.2.2) := by
  induction hits with
  | nil => intro acc; exact Or.inl rfl
  | cons o hits ih =>
    intro acc
    rcases ih (consider_hit e acc o) with h1 | ⟨q, hq, h1⟩
    · rcases consider_hit_sound e acc o with h2 | ⟨q, hq, h2⟩
      · exact Or.inl (by rw [List.foldl_cons, h1, h2])
      · refine Or.inr ⟨q, by simp [hq], ?_⟩
        rw [List.foldl_cons, h1, h2]
    · refine Or.inr ⟨q, by simp [hq], ?_⟩
      rw [List.foldl_cons]
      exact h1

theorem consider_hit_le_mono (e : Entity) (acc : HoverBest) (h : Option Hit)
    (t : ℝ) (hle : ∃ b, acc = some b ∧ b.1 ≤ t) :
    ∃ b, consider_hit e acc h = some b ∧ b.1 ≤ t := by
  obtain ⟨b, hb, hbt⟩ := hle
  subst hb
  rcases h with _ | ⟨t', op, ax⟩
  · exact ⟨b, rfl, hbt⟩
  · obtain ⟨bt, be, bop, bax⟩ := b
    by_cases hlt : t' < bt
    · exact ⟨(t', e, op, ax), by simp [consider_hit, if_pos hlt], by
        simp only []
        linarith [hbt]⟩
    · exact ⟨(bt, be, bop, bax), by simp [consider_hit, if_neg hlt], hbt⟩

theorem foldl_consider_le_mono (e : Entity) (hits : List (Option Hit)) :
    ∀ (acc : HoverBest) (t : ℝ), (∃ b, acc = some b ∧ b.1 ≤ t) →
      ∃ b, hits.foldl (consider_hit e) acc = some b ∧ b.1 ≤ t := by
  induction hits with
  | nil => intro acc t h; exact h
  | cons o hits ih =>
    intro acc t h
    exact ih _ t (consider_hit_le_mono e acc o t h)

theorem consider_hit_le_self (e : Entity) (acc : HoverBest) (q : Hit) :
    ∃ b, consider_hit e acc (some q) = some b ∧ b.1 ≤ q.1 := by
  obtain ⟨t, op, ax⟩ := q
  rcases acc with _ | ⟨bt, be, bop, bax⟩
  · exact ⟨(t, e, op, ax), rfl, le_refl t⟩
  · by_cases hlt : t < bt
    · exact ⟨(t, e, op, ax), by simp [consider_hit, if_pos hlt], le_refl t⟩
    · exact ⟨(bt, be, bop, bax), by simp [consider_hit, if_neg hlt],
        le_of_not_lt hlt⟩

theorem foldl_consider_le_elem (e : Entity) (hits : List (Option Hit)) :
    ∀ (acc : HoverBest) (q : Hit), some q ∈ hits →
      ∃ b, hits.foldl (consider_hit e) acc = some b ∧ b.1 ≤ q.1 := by
  induction hits with
  | nil => intro acc q h; simp at h
  | cons o hits ih =>
    intro acc q h
    rcases List.mem_cons.mp h with h1 | h1
    · subst h1
      exact foldl_consider_le_mono e hits _ q.1 (consider_hit_le_self e acc q)
    · exact ih _ q h1

theorem foldl_consider_eq_none (e : Entity) (hits : List (Option Hit)) :
    ∀ acc : HoverBest, hits.foldl (consider_hit e) acc = none ↔
      acc = none ∧ ∀ o ∈ hits, o = none := by
  induction hits with
  | nil => intro acc; simp
  | cons o hits ih =>
    intro acc
    rw [List.foldl_cons, ih]
    constructor
    · rintro ⟨h1, h2⟩
      rcases o with _ | ⟨t, op, ax⟩
      · exact ⟨h1, by simpa using h2⟩
      · exfalso
        rcases acc with _ | ⟨bt, be, bop, bax⟩
        · exact Option.noConfusion h1
        · revert h1
          simp only [consider_hit]
          split <;> intro h <;> exact Option.noConfusion h
    · rintro ⟨h1, h2⟩
      subst h1
      have ho : o = none := h2 o (List.mem_cons_self o hits)
      subst ho
      exact ⟨rfl, fun o ho => h2 o (List.mem_cons_of_mem _ ho)⟩

/-! ### Membership in the accepted-hit lists -/

theorem mem_accepted_target (style : TransformGizmoStyle)
    (space : TransformGizmoSpace) (ray : Ray) (p : Entity × GlobalTransform)
    (t : ℝ) (e : Entity) (op : GizmoOperation) (ax : GizmoAxis) :
    (t, e, op, ax) ∈ accepted_target_hits style space ray p ↔
      e = p.1 ∧
      (ray_sphere_intersection ray (GizmoFrame.new p.2 space).origin
        style.bounds_radius).isSome ∧
      some (t, op, ax) ∈ target_hits style ray (GizmoFrame.new p.2 space) := by
  unfold accepted_target_hits
  rcases hb : ray_sphere_intersection ray (GizmoFrame.new p.2 space).origin
      style.bounds_radius with _ | bt
  · simp [hb]
  · simp only [hb, List.mem_filterMap, Option.isSome_some, true_and]
    constructor
    · rintro ⟨o, ho, hmap⟩
      rcases o with _ | ⟨t', op', ax'⟩
      · exact absurd hmap (by simp)
      · simp only [Option.map_some', Option.some.injEq, Prod.mk.injEq] at hmap
        obtain ⟨h1, h2, h3, h4⟩ := hmap
        subst h1; subst h2; subst h3; subst h4
        exact ⟨rfl, by simpa using ho⟩
    · rintro ⟨he, ho⟩
      subst he
      exact ⟨some (t, op, ax), ho, rfl⟩

theorem accepted_hits_cons (style : TransformGizmoStyle)
    (space : TransformGizmoSpace) (ray : Ray) (p : Entity × GlobalTransform)
    (ts : List (Entity × GlobalTransform)) :
    accepted_hits style space ray (p :: ts) =
      accepted_target_hits style space ray p ++ accepted_hits style space ray ts := by
  simp [accepted_hits]

theorem scan_target_sound (style : TransformGizmoStyle)
    (space : TransformGizmoSpace) (ray : Ray) (acc : HoverBest)
    (p : Entity × GlobalTransform) :
    scan_target style space ray acc p = acc ∨
    ∃ t op ax, (t, p.1, op, ax) ∈ accepted_target_hits style space ray p ∧
      scan_target style space ray acc p = some (t, p.1, op, ax) := by
  unfold scan_target
  rcases hb : ray_sphere_intersection ray (GizmoFrame.new p.2 space).origin
      style.bounds_radius with _ | bt
  · simp [hb]
  · simp only [hb]
    rcases acc with _ | best
    · rcases foldl_consider_sound p.1
        (target_hits style ray (GizmoFrame.new p.2 space)) none with h | ⟨q, hq, h⟩
      · exact Or.inl h
      · refine Or.inr ⟨q.1, q.2.1, q.2.2, ?_, h⟩
        rw [mem_accepted_target]
        exact ⟨rfl, by rw [hb]; rfl, hq⟩
    · by_cases hskip : best.1 < bt
      · exact Or.inl (by simp only [if_pos hskip])
      · simp only [if_neg hskip]
        rcases foldl_consider_sound p.1
            (target_hits style ray (GizmoFrame.new p.2 space)) (some best) with
          h | ⟨q, hq, h⟩
        · exact Or.inl h
        · refine Or.inr ⟨q.1, q.2.1, q.2.2, ?_, h⟩
          rw [mem_accepted_target]
          exact ⟨rfl, by rw [hb]; rfl, hq⟩

theorem hover_scan_sound (style : TransformGizmoStyle)
    (space : TransformGizmoSpace) (ray : Ray)
    (targets : List (Entity × GlobalTransform)) :
    ∀ acc : HoverBest,
      targets.foldl (scan_target style space ray) acc = acc ∨
      ∃ t e op ax, (t, e, op, ax) ∈ accepted_hits style space ray targets ∧
        targets.foldl (scan_target style space ray) acc = some (t, e, op, ax) := by
  induction targets with
  | nil => intro acc; exact Or.inl rfl
  | cons p ts ih =>
    intro acc
    rcases ih (scan_target style space ray acc p) with h1 | ⟨t, e, op, ax, hm, h1⟩
    · rcases scan_target_sound style space ray acc p with h2 | ⟨t, op, ax, hm, h2⟩
      · exact Or.inl (by rw [List.foldl_cons, h1, h2])
      · exact Or.inr ⟨t, p.1, op, ax,
          by rw [accepted_hits_cons]; exact List.mem_append_left _ hm,
          by rw [List.foldl_cons, h1, h2]⟩
    · exact Or.inr ⟨t, e, op, ax,
        by rw [accepted_hits_cons]; exact List.mem_append_right _ hm,
        by rw [List.foldl_cons]; exact h1⟩

/-! ### Reduction of `update_hovered_axis` when every input is present -/

theorem update_hovered_axis_reduce (state : TransformGizmoState)
    (style : TransformGizmoStyle) (cam : Camera) (win : Window) (cp : Vec2)
    (ray : Ray) (targets : List (Entity × GlobalTransform))
    (hdrag : state.drag = none) (hcp : win.cursorPos = some cp)
    (hray : cam.viewportToWorld cp = some ray) :
    update_hovered_axis state style (some cam) (some win) targets =
      match targets.foldl (scan_target style state.space ray) none with
      | some (_, e, op, ax) =>
        { state with active_target := some e, hovered_axis := some ax,
                     hovered_op := some op }
      | none => { state with hovered_axis := none, hovered_op := none } := by
  unfold update_hovered_axis
  rw [hdrag]
  simp [hcp, hray]

/-! ### Claim C8: hover tie-break -/

/-- **C8** (amended): for a hit-test pass over a *single* target, the hover
result recorded in state is the accepted hit with the smallest ray
parameter `t` — in particular, of two overlapping handles of one gizmo the
one with smaller `t` wins — and when no handle is accepted, hovered axis
and hovered operation are cleared to `none` while the active target is
retained.  (Across several targets the bounding-sphere early-out
`bounds_t > best_t` can skip a later target whose accepted hit is closer
than the recorded one, so global minimality fails; see the
counterexample.) -/
theorem c8_hover_min_single_target (state : TransformGizmoState)
    (style : TransformGizmoStyle) (cam : Camera) (win : Window) (cp : Vec2)
    (ray : Ray) (e : Entity) (g : GlobalTransform)
    (hdrag : state.drag = none) (hcp : win.cursorPos = some cp)
    (hray : cam.viewportToWorld cp = some ray) :
    (accepted_hits style state.space ray [(e, g)] = [] →
      (update_hovered_axis state style (some cam) (some win)
        [(e, g)]).hovered_axis = none ∧
      (update_hovered_axis state style (some cam) (some win)
        [(e, g)]).hovered_op = none ∧
      (update_hovered_axis state style (some cam) (some win)
        [(e, g)]).active_target = state.active_target) ∧
    (accepted_hits style state.space ray [(e, g)] ≠ [] →
      ∃ t op ax,
        (update_hovered_axis state style (some cam) (some win)
          [(e, g)]).active_target = some e ∧
        (update_hovered_axis state style (some cam) (some win)
          [(e, g)]).hovered_op = some op ∧
        (update_hovered_axis state style (some cam) (some win)
          [(e, g)]).hovered_axis = some ax ∧
        (t, e, op, ax) ∈ accepted_hits style state.space ray [(e, g)] ∧
        ∀ h ∈ accepted_hits style state.space ray [(e, g)], t ≤ h.1) := by
  have hupd := update_hovered_axis_reduce state style cam win cp ray [(e, g)]
    hdrag hcp hray
  have hfold : List.foldl (scan_target style state.space ray) none [(e, g)] =
      scan_target style state.space ray none (e, g) := rfl
  rw [hfold] at hupd
  have haccs : accepted_hits style state.space ray [(e, g)] =
      accepted_target_hits style state.space ray (e, g) := by
    simp [accepted_hits]
  rcases hr : scan_target style state.space ray none (e, g) with _ | ⟨t, e1, op, ax⟩
  · -- nothing recorded: the accepted-hit list is empty
    rw [hr] at hupd
    have hempty : accepted_target_hits style state.space ray (e, g) = [] := by
      unfold scan_target at hr
      rcases hb : ray_sphere_intersection ray
          (GizmoFrame.new (e, g).2 state.space).origin style.bounds_radius with _ | bt
      · unfold accepted_target_hits
        simp [hb]
      · simp only [hb] at hr
        have hall := (foldl_consider_eq_none (e, g).1
          (target_hits style ray (GizmoFrame.new (e, g).2 state.space)) none).mp hr
        unfold accepted_target_hits
        simp only [hb]
        rw [List.filterMap_eq_nil_iff]
        intro o ho
        rw [hall.2 o ho]
        rfl
    constructor
    · intro _
      rw [hupd]
      exact ⟨rfl, rfl, rfl⟩
    · intro hne
      exfalso
      rw [haccs, hempty] at hne
      exact hne rfl
  · -- a hit was recorded: it is minimal among the accepted hits
    rw [hr] at hupd
    rcases scan_target_sound style state.space ray none (e, g) with h0 | ⟨t', op', ax', hm, h0⟩
    · rw [hr] at h0
      exact Option.noConfusion h0
    · rw [hr] at h0
      rw [Option.some.injEq, Prod.mk.injEq, Prod.mk.injEq, Prod.mk.injEq] at h0
      obtain ⟨ht, he, hop, hax⟩ := h0
      rw [← ht, ← hop, ← hax] at hm
      rw [he] at hr hupd
      -- bounds must be intersected in this case
      have hbs : ∃ bt, ray_sphere_intersection ray
          (GizmoFrame.new (e, g).2 state.space).origin style.bounds_radius =
            some bt := by
        unfold scan_target at hr
        rcases hb : ray_sphere_intersection ray
            (GizmoFrame.new (e, g).2 state.space).origin style.bounds_radius with _ | bt
        · simp [hb] at hr
        · exact ⟨bt, rfl⟩
      obtain ⟨bt, hb⟩ := hbs
      have hrfold : (target_hits style ray
          (GizmoFrame.new (e, g).2 state.space)).foldl (consider_hit e) none =
            some (t, e, op, ax) := by
        unfold scan_target at hr
        simp only [hb] at hr
        simpa using hr
      constructor
      · intro h0
        exfalso
        rw [haccs] at h0
        rw [h0] at hm
        simp at hm
      · intro _
        refine ⟨t, op, ax, ?_, ?_, ?_, ?_, ?_⟩
        · rw [hupd]
        · rw [hupd]
        · rw [hupd]
        · rw [haccs]
          exact hm
        · intro h hh
          rw [haccs] at hh
          obtain ⟨t2, e2, op2, ax2⟩ := h
          rw [mem_accepted_target] at hh
          obtain ⟨he2, _, hmem2⟩ := hh
          obtain ⟨b, hbfold, hble⟩ := foldl_consider_le_elem e
            (target_hits style ray (GizmoFrame.new (e, g).2 state.space)) none
            (t2, op2, ax2) hmem2
          rw [hrfold] at hbfold
          have hbeq : b = (t, e, op, ax) := (Option.some.inj hbfold).symm
          rw [hbeq] at hble
          exact hble

/-! ### Concrete rotation and frame evaluations for the hover scenario -/

theorem id3_rotate (v : Vec3) : Quat.id3.rotate v = v := by
  obtain ⟨vx, vy, vz⟩ := v
  simp [Quat.rotate, Quat.id3, Vec3.cross, Vec3.eq_iff_comps]

theorem qy180_rotate_x : (⟨0, 1, 0, 0⟩ : Quat).rotate ⟨1, 0, 0⟩ = ⟨-1, 0, 0⟩ := by
  simp [Quat.rotate, Vec3.cross, Vec3.eq_iff_comps]
  norm_num

theorem qy180_rotate_y : (⟨0, 1, 0, 0⟩ : Quat).rotate ⟨0, 1, 0⟩ = ⟨0, 1, 0⟩ := by
  simp [Quat.rotate, Vec3.cross, Vec3.eq_iff_comps]

theorem qy180_rotate_z : (⟨0, 1, 0, 0⟩ : Quat).rotate ⟨0, 0, 1⟩ = ⟨0, 0, -1⟩ := by
  simp [Quat.rotate, Vec3.cross, Vec3.eq_iff_comps]
  norm_num

theorem normalizeOrZero_unit (v : Vec3) (h : v.lengthSq = 1) :
    v.normalizeOrZero = v := by
  unfold Vec3.normalizeOrZero Vec3.length
  rw [h, Real.sqrt_one]
  rw [if_pos one_pos]
  simp [Vec3.eq_iff_comps]

theorem frame_gA : GizmoFrame.new gA .World =
    ⟨⟨0, 0, 5⟩, ⟨1, 0, 0⟩, ⟨0, 1, 0⟩, ⟨0, 0, 1⟩,
      ⟨1, 0, 0⟩, ⟨0, 1, 0⟩, ⟨0, 0, 1⟩⟩ := by
  unfold GizmoFrame.new
  simp [gA, id3_rotate, Vec3.unitX, Vec3.unitY, Vec3.unitZ]

theorem frame_gB : GizmoFrame.new gB .World =
    ⟨⟨4, 0, 7.2⟩, ⟨1, 0, 0⟩, ⟨0, 1, 0⟩, ⟨0, 0, 1⟩,
      ⟨-1, 0, 0⟩, ⟨0, 1, 0⟩, ⟨0, 0, -1⟩⟩ := by
  unfold GizmoFrame.new
  simp [gB, Vec3.unitX, Vec3.unitY, Vec3.unitZ,
    qy180_rotate_x, qy180_rotate_y, qy180_rotate_z]

theorem nlz_x : Vec3.normalizeOrZero ⟨1, 0, 0⟩ = ⟨1, 0, 0⟩ :=
  normalizeOrZero_unit _ (by norm_num [Vec3.lengthSq])

theorem nlz_y : Vec3.normalizeOrZero ⟨0, 1, 0⟩ = ⟨0, 1, 0⟩ :=
  normalizeOrZero_unit _ (by norm_num [Vec3.lengthSq])

theorem nlz_z : Vec3.normalizeOrZero ⟨0, 0, 1⟩ = ⟨0, 0, 1⟩ :=
  normalizeOrZero_unit _ (by norm_num [Vec3.lengthSq])

theorem nlz_negx : Vec3.normalizeOrZero ⟨-1, 0, 0⟩ = ⟨-1, 0, 0⟩ :=
  normalizeOrZero_unit _ (by norm_num [Vec3.lengthSq])

theorem nlz_negz : Vec3.normalizeOrZero ⟨0, 0, -1⟩ = ⟨0, 0, -1⟩ :=
  normalizeOrZero_unit _ (by norm_num [Vec3.lengthSq])

/-! Ray-sphere values of the hover scenario (ray from the origin along
`+z`). -/

theorem rs_A_bounds : ray_sphere_intersection rayCx8 ⟨0, 0, 5⟩ 5 = some 0 := by
  rw [ray_sphere_eval_hit rayCx8 ⟨0, 0, 5⟩ 5 5 (by norm_num)
    (by norm_num [rayCx8, Vec3.dot, Vec3.lengthSq])
    (by norm_num [rayCx8, Vec3.dot, Vec3.lengthSq])
    (by norm_num [rayCx8, Vec3.dot, Vec3.lengthSq])]
  simp only [Option.some.injEq]
  norm_num [rayCx8, Vec3.dot]

theorem rs_A_cubeX : ray_sphere_intersection rayCx8 ⟨4, 0, 5⟩ 3.5 = none :=
  ray_sphere_eval_miss rayCx8 ⟨4, 0, 5⟩ 3.5
    (by norm_num [rayCx8, Vec3.dot, Vec3.lengthSq])
    (by norm_num [rayCx8, Vec3.dot, Vec3.lengthSq])

theorem rs_A_cubeY : ray_sphere_intersection rayCx8 ⟨0, 4, 5⟩ 3.5 = none :=
  ray_sphere_eval_miss rayCx8 ⟨0, 4, 5⟩ 3.5
    (by norm_num [rayCx8, Vec3.dot, Vec3.lengthSq])
    (by norm_num [rayCx8, Vec3.dot, Vec3.lengthSq])

theorem rs_A_cubeZ : ray_sphere_intersection rayCx8 ⟨0, 0, 9⟩ 3.5 = some 5.5 := by
  rw [ray_sphere_eval_hit rayCx8 ⟨0, 0, 9⟩ 3.5 3.5 (by norm_num)
    (by norm_num [rayCx8, Vec3.dot, Vec3.lengthSq])
    (by norm_num [rayCx8, Vec3.dot, Vec3.lengthSq])
    (by norm_num [rayCx8, Vec3.dot, Vec3.lengthSq])]
  simp only [Option.some.injEq]
  norm_num [rayCx8, Vec3.dot]

theorem rs_A_unif : ray_sphere_intersection rayCx8 ⟨0, 0, 5⟩ 1 = some 4 := by
  rw [ray_sphere_eval_hit rayCx8 ⟨0, 0, 5⟩ 1 1 (by norm_num)
    (by norm_num [rayCx8, Vec3.dot, Vec3.lengthSq])
    (by norm_num [rayCx8, Vec3.dot, Vec3.lengthSq])
    (by norm_num [rayCx8, Vec3.dot, Vec3.lengthSq])]
  simp only [Option.some.injEq]
  norm_num [rayCx8, Vec3.dot]

theorem rs_B_bounds : ray_sphere_intersection rayCx8 ⟨4, 0, 7.2⟩ 5 = some 4.2 := by
  rw [ray_sphere_eval_hit rayCx8 ⟨4, 0, 7.2⟩ 5 3 (by norm_num)
    (by norm_num [rayCx8, Vec3.dot, Vec3.lengthSq])
    (by norm_num [rayCx8, Vec3.dot, Vec3.lengthSq])
    (by norm_num [rayCx8, Vec3.dot, Vec3.lengthSq])]
  simp only [Option.some.injEq]
  norm_num [rayCx8, Vec3.dot]

theorem rs_B_cubeX : ray_sphere_intersection rayCx8 ⟨0, 0, 7.2⟩ 3.5 = some 3.7 := by
  rw [ray_sphere_eval_hit rayCx8 ⟨0, 0, 7.2⟩ 3.5 3.5 (by norm_num)
    (by norm_num [rayCx8, Vec3.dot, Vec3.lengthSq])
    (by norm_num [rayCx8, Vec3.dot, Vec3.lengthSq])
    (by norm_num [rayCx8, Vec3.dot, Vec3.lengthSq])]
  simp only [Option.some.injEq]
  norm_num [rayCx8, Vec3.dot]

theorem rs_B_cubeY : ray_sphere_intersection rayCx8 ⟨4, 4, 7.2⟩ 3.5 = none :=
  ray_sphere_eval_miss rayCx8 ⟨4, 4, 7.2⟩ 3.5
    (by norm_num [rayCx8, Vec3.dot, Vec3.lengthSq])
    (by norm_num [rayCx8, Vec3.dot, Vec3.lengthSq])

theorem rs_B_cubeZ : ray_sphere_intersection rayCx8 ⟨4, 0, 3.2⟩ 3.5 = none :=
  ray_sphere_eval_miss rayCx8 ⟨4, 0, 3.2⟩ 3.5
    (by norm_num [rayCx8, Vec3.dot, Vec3.lengthSq])
    (by norm_num [rayCx8, Vec3.dot, Vec3.lengthSq])

theorem rs_B_unif : ray_sphere_intersection rayCx8 ⟨4, 0, 7.2⟩ 1 = none :=
  ray_sphere_eval_miss rayCx8 ⟨4, 0, 7.2⟩ 1
    (by norm_num [rayCx8, Vec3.dot, Vec3.lengthSq])
    (by norm_num [rayCx8, Vec3.dot, Vec3.lengthSq])

/-! Handle-test evaluation helpers. -/

theorem cone_hit_not_shown (style : TransformGizmoStyle) (ray : Ray)
    (f : GizmoFrame) (ax : GizmoAxis) (h : style.show_translate = false) :
    cone_hit style ray f ax = none := by
  unfold cone_hit
  rw [if_neg (by simp [h])]

theorem ring_hit_not_shown (style : TransformGizmoStyle) (ray : Ray)
    (f : GizmoFrame) (ax : GizmoAxis) (h : style.show_rotate = false) :
    ring_hit style ray f ax = none := by
  unfold ring_hit
  rw [if_neg (by simp [h])]

theorem plane_rect_hit_not_shown (style : TransformGizmoStyle) (ray : Ray)
    (f : GizmoFrame) (ax : GizmoAxis) (h : style.show_translate = false) :
    plane_rect_hit style ray f ax = none := by
  unfold plane_rect_hit
  rw [if_neg (by simp [h])]

theorem cube_hit_eval (style : TransformGizmoStyle) (ray : Ray)
    (f : GizmoFrame) (ax : GizmoAxis) (dir center : Vec3) (res : Option ℝ)
    (hshow : style.show_scale = true) (hen : style.scale_axes.enabled ax = true)
    (hdir : (f.axis_dir ax .Scale).normalizeOrZero = dir)
    (hlen : ¬ dir.lengthSq < EPSILON)
    (hcenter : f.origin + (style.axis_length * style.scale_cube_offset) • dir =
      center)
    (hrs : ray_sphere_intersection ray center style.scale_hit_radius = res) :
    cube_hit style ray f ax =
      res.map (fun t => (t, GizmoOperation.ScaleAxis, ax)) := by
  unfold cube_hit
  rw [if_pos ⟨hshow, hen⟩]
  simp only [hdir]
  rw [if_neg hlen, hcenter, hrs]

theorem uniform_hit_eval (style : TransformGizmoStyle) (ray : Ray)
    (f : GizmoFrame) (res : Option ℝ)
    (h1 : style.show_scale = true) (h2 : style.show_scale_uniform = true)
    (hrs : ray_sphere_intersection ray f.origin
      style.scale_uniform_hit_radius = res) :
    uniform_hit style ray f =
      res.map (fun t => (t, GizmoOperation.ScaleUniform, GizmoAxis.X)) := by
  unfold uniform_hit
  rw [if_pos ⟨h1, h2⟩, hrs]

theorem cone_off8 (ray : Ray) (f : GizmoFrame) (ax : GizmoAxis) :
    cone_hit styleCx8 ray f ax = none :=
  cone_hit_not_shown _ _ _ _ rfl

theorem ring_off8 (ray : Ray) (f : GizmoFrame) (ax : GizmoAxis) :
    ring_hit styleCx8 ray f ax = none :=
  ring_hit_not_shown _ _ _ _ rfl

theorem plane_off8 (ray : Ray) (f : GizmoFrame) (ax : GizmoAxis) :
    plane_rect_hit styleCx8 ray f ax = none :=
  plane_rect_hit_not_shown _ _ _ _ rfl

theorem cubeA_X : cube_hit styleCx8 rayCx8 (GizmoFrame.new gA .World) .X = none := by
  rw [frame_gA]
  exact cube_hit_eval styleCx8 rayCx8 _ .X ⟨1, 0, 0⟩ ⟨4, 0, 5⟩ none rfl rfl
    nlz_x (by norm_num [Vec3.lengthSq, EPSILON])
    (by norm_num [styleCx8, Vec3.eq_iff_comps]) rs_A_cubeX

theorem cubeA_Y : cube_hit styleCx8 rayCx8 (GizmoFrame.new gA .World) .Y = none := by
  rw [frame_gA]
  exact cube_hit_eval styleCx8 rayCx8 _ .Y ⟨0, 1, 0⟩ ⟨0, 4, 5⟩ none rfl rfl
    nlz_y (by norm_num [Vec3.lengthSq, EPSILON])
    (by norm_num [styleCx8, Vec3.eq_iff_comps]) rs_A_cubeY

theorem cubeA_Z : cube_hit styleCx8 rayCx8 (GizmoFrame.new gA .World) .Z =
    some (5.5, .ScaleAxis, .Z) := by
  rw [frame_gA]
  exact cube_hit_eval styleCx8 rayCx8 _ .Z ⟨0, 0, 1⟩ ⟨0, 0, 9⟩ (some 5.5) rfl rfl
    nlz_z (by norm_num [Vec3.lengthSq, EPSILON])
    (by norm_num [styleCx8, Vec3.eq_iff_comps]) rs_A_cubeZ

theorem unifA : uniform_hit styleCx8 rayCx8 (GizmoFrame.new gA .World) =
    some (4, .ScaleUniform, .X) := by
  rw [frame_gA]
  exact uniform_hit_eval styleCx8 rayCx8 _ (some 4) rfl rfl rs_A_unif

theorem cubeB_X : cube_hit styleCx8 rayCx8 (GizmoFrame.new gB .World) .X =
    some (3.7, .ScaleAxis, .X) := by
  rw [frame_gB]
  exact cube_hit_eval styleCx8 rayCx8 _ .X ⟨-1, 0, 0⟩ ⟨0, 0, 7.2⟩ (some 3.7) rfl rfl
    nlz_negx (by norm_num [Vec3.lengthSq, EPSILON])
    (by norm_num [styleCx8, Vec3.eq_iff_comps]) rs_B_cubeX

theorem cubeB_Y : cube_hit styleCx8 rayCx8 (GizmoFrame.new gB .World) .Y = none := by
  rw [frame_gB]
  exact cube_hit_eval styleCx8 rayCx8 _ .Y ⟨0, 1, 0⟩ ⟨4, 4, 7.2⟩ none rfl rfl
    nlz_y (by norm_num [Vec3.lengthSq, EPSILON])
    (by norm_num [styleCx8, Vec3.eq_iff_comps]) rs_B_cubeY

theorem cubeB_Z : cube_hit styleCx8 rayCx8 (GizmoFrame.new gB .World) .Z = none := by
  rw [frame_gB]
  exact cube_hit_eval styleCx8 rayCx8 _ .Z ⟨0, 0, -1⟩ ⟨4, 0, 3.2⟩ none rfl rfl
    nlz_negz (by norm_num [Vec3.lengthSq, EPSILON])
    (by norm_num [styleCx8, Vec3.eq_iff_comps]) rs_B_cubeZ

theorem unifB : uniform_hit styleCx8 rayCx8 (GizmoFrame.new gB .World) = none := by
  rw [frame_gB]
  exact uniform_hit_eval styleCx8 rayCx8 _ none rfl rfl rs_B_unif

theorem target_hits_gA : target_hits styleCx8 rayCx8 (GizmoFrame.new gA .World) =
    [none, none, none,
     none, none, some (5.5, .ScaleAxis, .Z),
     none, none, none,
     none, none, none,
     some (4, .ScaleUniform, .X)] := by
  unfold target_hits
  rw [cubeA_X, cubeA_Y, cubeA_Z, unifA]
  simp only [cone_off8, ring_off8, plane_off8]

theorem target_hits_gB : target_hits styleCx8 rayCx8 (GizmoFrame.new gB .World) =
    [none, none, none,
     some (3.7, .ScaleAxis, .X), none, none,
     none, none, none,
     none, none, none,
     none] := by
  unfold target_hits
  rw [cubeB_X, cubeB_Y, cubeB_Z, unifB]
  simp only [cone_off8, ring_off8, plane_off8]

theorem scanA : scan_target styleCx8 .World rayCx8 none (0, gA) =
    some (4, 0, .ScaleUniform, .X) := by
  unfold scan_target
  have hb : ray_sphere_intersection rayCx8
      (GizmoFrame.new (0, gA).2 TransformGizmoSpace.World).origin
      styleCx8.bounds_radius = some 0 := by
    rw [show (0, gA).2 = gA from rfl, frame_gA]
    exact rs_A_bounds
  simp only [hb]
  rw [show GizmoFrame.new (0, gA).2 TransformGizmoSpace.World =
    GizmoFrame.new gA TransformGizmoSpace.World from rfl, target_hits_gA]
  simp only [List.foldl_cons, List.foldl_nil, consider_hit]
  rw [if_pos (by norm_num : (4 : ℝ) < 5.5)]

theorem scanB : scan_target styleCx8 .World rayCx8
    (some (4, 0, .ScaleUniform, .X)) (1, gB) =
    some (4, 0, .ScaleUniform, .X) := by
  unfold scan_target
  have hb : ray_sphere_intersection rayCx8
      (GizmoFrame.new (1, gB).2 TransformGizmoSpace.World).origin
      styleCx8.bounds_radius = some 4.2 := by
    rw [show (1, gB).2 = gB from rfl, frame_gB]
    exact rs_B_bounds
  simp only [hb]
  rw [if_pos (by norm_num : ((4 : ℝ), (0 : Entity), GizmoOperation.ScaleUniform,
    GizmoAxis.X).1 < 4.2)]

theorem hover_update_cx8 :
    update_hovered_axis stateIdle styleCx8 (some (camOf rayCx8)) (some winCx)
      [(0, gA), (1, gB)] =
      { stateIdle with active_target := some 0, hovered_axis := some .X,
                       hovered_op := some .ScaleUniform } := by
  rw [update_hovered_axis_reduce stateIdle styleCx8 (camOf rayCx8) winCx
    ⟨0, 0⟩ rayCx8 [(0, gA), (1, gB)] rfl rfl rfl]
  have hf : List.foldl (scan_target styleCx8 stateIdle.space rayCx8) none
      [(0, gA), (1, gB)] = some (4, 0, .ScaleUniform, .X) := by
    rw [List.foldl_cons, List.foldl_cons, List.foldl_nil]
    rw [show stateIdle.space = TransformGizmoSpace.World from rfl]
    rw [scanA, scanB]
  rw [hf]

theorem accepted_cx8 : accepted_hits styleCx8 .World rayCx8 [(0, gA), (1, gB)] =
    [(5.5, 0, .ScaleAxis, .Z), (4, 0, .ScaleUniform, .X),
     (3.7, 1, .ScaleAxis, .X)] := by
  unfold accepted_hits accepted_target_hits
  have hbA : ray_sphere_intersection rayCx8
      (GizmoFrame.new (0, gA).2 TransformGizmoSpace.World).origin
      styleCx8.bounds_radius = some 0 := by
    rw [show (0, gA).2 = gA from rfl, frame_gA]
    exact rs_A_bounds
  have hbB : ray_sphere_intersection rayCx8
      (GizmoFrame.new (1, gB).2 TransformGizmoSpace.World).origin
      styleCx8.bounds_radius = some 4.2 := by
    rw [show (1, gB).2 = gB from rfl, frame_gB]
    exact rs_B_bounds
  simp only [List.map_cons, List.map_nil, hbA, hbB]
  rw [show GizmoFrame.new (0, gA).2 TransformGizmoSpace.World =
    GizmoFrame.new gA TransformGizmoSpace.World from rfl, target_hits_gA]
  rw [show GizmoFrame.new (1, gB).2 TransformGizmoSpace.World =
    GizmoFrame.new gB TransformGizmoSpace.World from rfl, target_hits_gB]
  simp [List.filterMap_cons]

/-- Counterexample for C8 as stated: in the two-target scenario the pass
records target `0` with the uniform-scale hit at `t = 4`, while target `1`
owns an accepted scale-cube hit at `t = 3.7 < 4` — its bounding sphere is
intersected (at `t = 4.2 > 4`), so the `bounds_t > best_t` early-out skips
it and the recorded hover is not the accepted hit of smallest `t`. -/
theorem c8_hover_not_global_min :
    ¬ spec_hover_is_min stateIdle styleCx8 (camOf rayCx8) winCx
      [(0, gA), (1, gB)] := by
  intro hspec
  have h := hspec rfl ⟨0, 0⟩ rayCx8 rfl rfl
  have haccs : accepted_hits styleCx8 stateIdle.space rayCx8
      [(0, gA), (1, gB)] =
      [(5.5, 0, .ScaleAxis, .Z), (4, 0, .ScaleUniform, .X),
       (3.7, 1, .ScaleAxis, .X)] := accepted_cx8
  obtain ⟨e, op, ax, t, hact, hop, hax, hmem, hmin⟩ :=
    h.2 (by rw [haccs]; simp)
  rw [hover_update_cx8] at hact hop hax
  simp only [Option.some.injEq] at hact hop hax
  rw [haccs] at hmem hmin
  have hmin2 := hmin (3.7, 1, .ScaleAxis, .X) (by simp)
  rw [← hact, ← hop, ← hax] at hmem
  simp only [List.mem_cons, List.not_mem_nil, or_false, Prod.mk.injEq] at hmem
  rcases hmem with ⟨_, _, hop2, _⟩ | ⟨ht4, _⟩ | ⟨_, he1, _⟩
  · exact GizmoOperation.noConfusion hop2
  · rw [ht4] at hmin2
    norm_num at hmin2
  · exact absurd he1.symm (by norm_num)

/-- Witness for C8 (amended), instantiated at the single target `(0, gA)`. -/
theorem c8_hover_min_single_target_witness :
    (accepted_hits styleCx8 stateIdle.space rayCx8 [(0, gA)] = [] →
      (update_hovered_axis stateIdle styleCx8 (some (camOf rayCx8))
        (some winCx) [(0, gA)]).hovered_axis = none ∧
      (update_hovered_axis stateIdle styleCx8 (some (camOf rayCx8))
        (some winCx) [(0, gA)]).hovered_op = none ∧
      (update_hovered_axis stateIdle styleCx8 (some (camOf rayCx8))
        (some winCx) [(0, gA)]).active_target = stateIdle.active_target) ∧
    (accepted_hits styleCx8 stateIdle.space rayCx8 [(0, gA)] ≠ [] →
      ∃ t op ax,
        (update_hovered_axis stateIdle styleCx8 (some (camOf rayCx8))
          (some winCx) [(0, gA)]).active_target = some 0 ∧
        (update_hovered_axis stateIdle styleCx8 (some (camOf rayCx8))
          (some winCx) [(0, gA)]).hovered_op = some op ∧
        (update_hovered_axis stateIdle styleCx8 (some (camOf rayCx8))
          (some winCx) [(0, gA)]).hovered_axis = some ax ∧
        (t, 0, op, ax) ∈ accepted_hits styleCx8 stateIdle.space rayCx8
          [(0, gA)] ∧
        ∀ h ∈ accepted_hits styleCx8 stateIdle.space rayCx8 [(0, gA)],
          t ≤ h.1) :=
  c8_hover_min_single_target stateIdle styleCx8 (camOf rayCx8) winCx ⟨0, 0⟩
    rayCx8 0 gA rfl rfl rfl

/-! ### Claim C10: the active target is never cleared -/

/-- **C10**: no system ever resets the active target to `none`: a hit-test
pass with no winning hit (or with camera, window or cursor missing) leaves
`active_target` at its previous value while clearing only the hovered
axis/operation; `update_hovered_axis` changes the active target only to the
owner of an accepted winning hit, `sync_active_target` only to an entity
carrying the active marker, and `begin_drag`/`end_drag` never touch it. -/
theorem c10_active_target_persistence :
    (∀ (state : TransformGizmoState) style camera window targets,
      (update_hovered_axis state style camera window targets).active_target =
        none → state.active_target = none) ∧
    (∀ (state : TransformGizmoState) style camera window targets,
      (update_hovered_axis state style camera window targets).active_target ≠
        state.active_target →
      ∃ cam win cp ray t e op ax, camera = some cam ∧ window = some win ∧
        win.cursorPos = some cp ∧ cam.viewportToWorld cp = some ray ∧
        (update_hovered_axis state style camera window
          targets).active_target = some e ∧
        (t, e, op, ax) ∈ accepted_hits style state.space ray targets) ∧
    (∀ (state : TransformGizmoState) first_active,
      (sync_active_target state first_active).active_target =
        state.active_target ∨
      ∃ a, first_active = some a ∧
        (sync_active_target state first_active).active_target = some a) ∧
    (∀ (state : TransformGizmoState) first_active,
      (sync_active_target state first_active).active_target = none →
      state.active_target = none) ∧
    (∀ jp (state : TransformGizmoState) cam win tg,
      (begin_drag jp state cam win tg).active_target = state.active_target) ∧
    (∀ b (state : TransformGizmoState),
      (end_drag b state).active_target = state.active_target) := by
  refine ⟨?_, ?_, ?_, ?_, ?_, ?_⟩
  · intro state style camera window targets
    unfold update_hovered_axis clear_hover
    repeat' split
    all_goals intro h
    all_goals first
      | exact h
      | exact Option.noConfusion h
  · intro state style camera window targets hne
    rcases hd : state.drag with _ | d
    case some =>
      exfalso
      apply hne
      have h0 : update_hovered_axis state style camera window targets = state := by
        unfold update_hovered_axis
        rw [hd]
        simp
      rw [h0]
    case none =>
      rcases camera with _ | cam
      · exfalso
        apply hne
        have h0 : update_hovered_axis state style none window targets =
            clear_hover state := by
          unfold update_hovered_axis
          rw [hd]
          simp
        rw [h0]
        rfl
      · rcases window with _ | win
        · exfalso
          apply hne
          have h0 : update_hovered_axis state style (some cam) none targets =
              clear_hover state := by
            unfold update_hovered_axis
            rw [hd]
            simp
          rw [h0]
          rfl
        · rcases hcp : win.cursorPos with _ | cp
          · exfalso
            apply hne
            have h0 : update_hovered_axis state style (some cam) (some win)
                targets = clear_hover state := by
              unfold update_hovered_axis
              rw [hd]
              simp [hcp]
            rw [h0]
            rfl
          · rcases hray : cam.viewportToWorld cp with _ | ray
            · exfalso
              apply hne
              have h0 : update_hovered_axis state style (some cam) (some win)
                  targets = clear_hover state := by
                unfold update_hovered_axis
                rw [hd]
                simp [hcp, hray]
              rw [h0]
              rfl
            · have hupd := update_hovered_axis_reduce state style cam win cp
                ray targets hd hcp hray
              rcases hacc : targets.foldl (scan_target style state.space ray)
                  none with _ | ⟨t, e, op, ax⟩
              · exfalso
                apply hne
                rw [hacc] at hupd
                rw [hupd]
              · rw [hacc] at hupd
                rcases hover_scan_sound style state.space ray targets none with
                  hs | ⟨t', e', op', ax', hmem, hs⟩
                · rw [hacc] at hs
                  exact Option.noConfusion hs
                · rw [hacc, Option.some.injEq, Prod.mk.injEq, Prod.mk.injEq,
                    Prod.mk.injEq] at hs
                  obtain ⟨h1, h2, h3, h4⟩ := hs
                  rw [← h1, ← h2, ← h3, ← h4] at hmem
                  exact ⟨cam, win, cp, ray, t, e, op, ax, rfl, rfl, hcp, hray,
                    by rw [hupd], hmem⟩
  · intro state first_active
    rcases first_active with _ | a
    · exact Or.inl rfl
    · exact Or.inr ⟨a, rfl, rfl⟩
  · intro state first_active h
    rcases first_active with _ | a
    · exact h
    · exact Option.noConfusion h
  · intro jp state cam win tg
    unfold begin_drag
    repeat' split
    all_goals rfl
  · intro b state
    unfold end_drag
    split
    all_goals rfl

/-- Witness for C10: a pass with no camera leaves the (empty) active target
untouched. -/
theorem c10_active_target_persistence_witness :
    stateIdle.active_target = none :=
  c10_active_target_persistence.1 stateIdle styleCx8 none (some winCx) []
    (by simp [update_hovered_axis, stateIdle, clear_hover])
